import Mathlib

namespace SeoAi

/-- Model of a JavaScript JSON value as produced by `response.json()` or
`JSON.parse`. Numbers are modelled as integers (the repository only ever
compares numeric payloads against the literal `0`); `undefined` is modelled
by `Option.none` at use sites, never as a `Json` value, since `JSON.parse`
cannot produce it. -/
inductive Json where
  | null : Json
  | bool (b : Bool) : Json
  | num (n : Int) : Json
  | str (s : String) : Json
  | arr (elems : List Json) : Json
  | obj (fields : List (String × Json)) : Json

/-- First-match association-list lookup, modelling property lookup on a
JavaScript object whose keys are unique (as guaranteed by `JSON.parse`). -/
def lookupField : List (String × Json) → String → Option Json
  | [], _ => none
  | (k0, v0) :: t, k => if k0 = k then some v0 else lookupField t k

/-- Whitespace in the sense of JavaScript `String.prototype.trim`
(ECMAScript WhiteSpace and LineTerminator code points). -/
def isJsWhitespace (c : Char) : Bool :=
  [9, 10, 11, 12, 13, 32, 160, 0x1680, 0x2028, 0x2029, 0x202F, 0x205F,
    0x3000, 0xFEFF].contains c.toNat
  || (0x2000 ≤ c.toNat && c.toNat ≤ 0x200A)

/-- JavaScript `trim()` on a character list. -/
def trimJs (l : List Char) : List Char :=
  ((l.dropWhile isJsWhitespace).reverse.dropWhile isJsWhitespace).reverse

/-- JavaScript `s.trim()` on a string. -/
def jsTrim (s : String) : String := String.mk (trimJs s.data)

/-- Property access `v[key]` on a non-null JavaScript value, for keys that are
not built-in properties (the repository only reads the data keys `keywords`,
`blog_post_html`, `current_rank`, `previous_rank`, `keyword`, `intent` and the
four tool names, none of which is a built-in of arrays, strings or numbers).
`none` models the result `undefined`. Access on `null` is handled separately
at each call site, because in JavaScript it throws. -/
def jsProp : Json → String → Option Json
  | Json.obj fields, k => lookupField fields k
  | _, _ => none

/-- Element access `v?.[0]`: `undefined` on `null`, index 0 on an array,
property `"0"` on an object, the first character on a string (JavaScript
returns a one-character string), `undefined` on numbers and booleans. -/
def jsIndex0 : Json → Option Json
  | Json.null => none
  | Json.arr elems => elems.head?
  | Json.obj fields => lookupField fields "0"
  | Json.str s => s.data.head?.map (fun c => Json.str (String.singleton c))
  | _ => none

/-- Optional-chained property access `x?.key` where `x` may be `undefined`
(`none`) or `null`; both short-circuit to `undefined`. -/
def jsFieldOpt (x : Option Json) (k : String) : Option Json :=
  match x with
  | none => none
  | some Json.null => none
  | some v => jsProp v k

/-- JavaScript truthiness of a possibly-undefined JSON value: `undefined`,
`null`, `false`, `0` and the empty string are falsy; arrays and objects are
always truthy. (`NaN`, the remaining falsy value, cannot arise here because
numbers are modelled as integers.) -/
def jsTruthy : Option Json → Bool
  | none => false
  | some Json.null => false
  | some (Json.bool b) => b
  | some (Json.num n) => n != 0
  | some (Json.str s) => s != ""
  | some (Json.arr _) => true
  | some (Json.obj _) => true

/-- Strict equality `v === 0` of a JSON value against the number literal 0. -/
def isNumZero : Json → Bool
  | Json.num n => n == 0
  | _ => false

/-- Outcome of the `fetch`/`response.json()` part of a submit handler, seen
from the handler's `try` block: the promise chain either rejects during
`fetch` (network failure), yields a non-2xx response (`response.ok` false,
carrying the status used in the thrown message), rejects while parsing the
body as JSON, or resolves with a parsed JSON value. -/
inductive FetchOutcome where
  | networkError (msg : String) : FetchOutcome
  | httpError (status : Nat) : FetchOutcome
  | jsonError (msg : String) : FetchOutcome
  | ok (data : Json) : FetchOutcome

/-- Message of the `TypeError` thrown by reading a property of `null`
(`keywordsData[0].keyword` when the first element is `null`). The exact text
is engine-specific; it is modelled as this fixed string. -/
def nullReadMsg : String := "Cannot read properties of null"

namespace KeywordGeneratorTool

/-- State of the Keyword Generator tool (`KeywordGeneratorState` in
`types.ts`). `result` holds the raw JSON array stored by the handler (the
TypeScript annotation `Keyword[]` is not enforced at runtime beyond the
checks in `handleSubmit`). -/
structure State where
  webhook : String
  topic : String
  result : Option Json
  isLoading : Bool
  error : Option String
  rawResponse : Option Json

/-- Error-message prefix added by the handler's `catch` block. -/
def failPrefix : String := "Failed to generate keywords: "

/-- Message thrown when `data?.[0]?.keywords` is not an array. -/
def shapeMsg : String :=
  "Invalid data structure in webhook response. Expected an array with one object like: [\x7b \"keywords\": [...] \x7d]."

/-- Message thrown when the first keyword object misses `keyword` or `intent`. -/
def innerMsg : String :=
  "Keyword objects in the response are missing required properties like \"keyword\" or \"intent\"."

/-- The shape-validation part of `handleSubmit`: extracts
`data?.[0]?.keywords`, requires it to be an array and, when non-empty,
requires its first element to carry `keyword` and `intent` properties
(reading a property of a `null` first element throws a `TypeError`).
Returns the value stored into `result` or the thrown message. -/
def extract (data : Json) : Except String Json :=
  match jsFieldOpt (jsIndex0 data) "keywords" with
  | some (Json.arr ks) =>
    match ks with
    | [] => Except.ok (Json.arr ks)
    | k :: _ =>
      match k with
      | Json.null => Except.error nullReadMsg
      | _ =>
        if (jsProp k "keyword").isNone || (jsProp k "intent").isNone then Except.error innerMsg
        else Except.ok (Json.arr ks)
  | _ => Except.error shapeMsg

/-- The first `updateState` call of the `try` path. -/
def start (st : State) : State :=
  { st with isLoading := true, error := none, result := none, rawResponse := none }

/-- The rest of `handleSubmit` after the request settles with outcome `o`:
the `try`/`catch` body applied to the in-flight state, followed by the
`finally` block clearing `isLoading`. -/
def finish (st : State) (o : FetchOutcome) : State :=
  let st2 :=
    match o with
    | FetchOutcome.networkError m => { st with error := some (failPrefix ++ m) }
    | FetchOutcome.httpError status =>
      { st with error := some (failPrefix ++ "HTTP error! Status: " ++ toString status) }
    | FetchOutcome.jsonError m => { st with error := some (failPrefix ++ m) }
    | FetchOutcome.ok data =>
      let st1 := { st with rawResponse := some data }
      match extract data with
      | Except.ok ks => { st1 with result := some ks }
      | Except.error m => { st1 with error := some (failPrefix ++ m) }
  { st2 with isLoading := false }

/-- `handleSubmit` as a function of the state and of the outcome the network
would deliver; the boolean records whether a `fetch` request was issued.
The model issues at most one request per invocation by construction (there
is no retry path). -/
def handleSubmit (st : State) (o : FetchOutcome) : State × Bool :=
  if st.webhook = "" ∨ st.topic = "" then
    ({ st with error := some "Webhook URL and topic are required." }, false)
  else
    (finish (start st) o, true)

/-- The `disabled` attribute of the submit button:
`isLoading || !webhook || !topic`. -/
def submitDisabled (st : State) : Bool :=
  st.isLoading || st.webhook == "" || st.topic == ""

/-- The `disabled` attribute of the webhook input (`disabled={isLoading}`). -/
def webhookInputDisabled (st : State) : Bool := st.isLoading

/-- The `disabled` attribute of the topic input (`disabled={isLoading}`). -/
def topicInputDisabled (st : State) : Bool := st.isLoading

/-- One click on the submit button, as dispatched by the browser: a disabled
button fires no handler, an enabled one runs the handler up to the point the
request is issued. The boolean records whether a request was started. -/
def clickDispatch (st : State) : State × Bool :=
  if submitDisabled st then (st, false)
  else (start st, true)

end KeywordGeneratorTool

namespace OnPageSeoTool

/-- State of the On-Page SEO tool (`OnPageSeoState` in `types.ts`); `result`
holds the markdown/HTML report string. -/
structure State where
  webhook : String
  url : String
  result : Option String
  isLoading : Bool
  error : Option String
  rawResponse : Option Json

/-- Error-message prefix added by the handler's `catch` block. -/
def failPrefix : String := "Failed to fetch analysis: "

/-- Message thrown when `data?.[0]?.blog_post_html` is not a non-blank string. -/
def shapeMsg : String :=
  "Invalid or empty content in webhook response. Expected [\x7b \"blog_post_html\": \"<string>\" \x7d]."

/-- The shape-validation part of `handleSubmit`: extracts
`data?.[0]?.blog_post_html` and requires it to be a string whose trim is
non-empty. -/
def extract (data : Json) : Except String String :=
  match jsFieldOpt (jsIndex0 data) "blog_post_html" with
  | some (Json.str s) => if jsTrim s = "" then Except.error shapeMsg else Except.ok s
  | _ => Except.error shapeMsg

/-- The first `updateState` call of the `try` path. -/
def start (st : State) : State :=
  { st with isLoading := true, error := none, result := none, rawResponse := none }

/-- The rest of `handleSubmit` after the request settles with outcome `o`. -/
def finish (st : State) (o : FetchOutcome) : State :=
  let st2 :=
    match o with
    | FetchOutcome.networkError m => { st with error := some (failPrefix ++ m) }
    | FetchOutcome.httpError status =>
      { st with error := some (failPrefix ++ "HTTP error! Status: " ++ toString status) }
    | FetchOutcome.jsonError m => { st with error := some (failPrefix ++ m) }
    | FetchOutcome.ok data =>
      let st1 := { st with rawResponse := some data }
      match extract data with
      | Except.ok s => { st1 with result := some s }
      | Except.error m => { st1 with error := some (failPrefix ++ m) }
  { st2 with isLoading := false }

/-- `handleSubmit` as a function of the state and of the network outcome; the
boolean records whether a `fetch` request was issued. -/
def handleSubmit (st : State) (o : FetchOutcome) : State × Bool :=
  if st.webhook = "" ∨ st.url = "" then
    ({ st with error := some "Webhook URL and page URL are required." }, false)
  else
    (finish (start st) o, true)

/-- The `disabled` attribute of the submit button:
`isLoading || !webhook || !url`. -/
def submitDisabled (st : State) : Bool :=
  st.isLoading || st.webhook == "" || st.url == ""

/-- The `disabled` attribute of the webhook input (`disabled={isLoading}`). -/
def webhookInputDisabled (st : State) : Bool := st.isLoading

/-- The `disabled` attribute of the page-URL input (`disabled={isLoading}`). -/
def urlInputDisabled (st : State) : Bool := st.isLoading

/-- One click on the submit button: a disabled button fires no handler. -/
def clickDispatch (st : State) : State × Bool :=
  if submitDisabled st then (st, false)
  else (start st, true)

end OnPageSeoTool

namespace BlogPostWriterTool

/-- State of the Blog Post Writer tool (`BlogPostWriterState` in `types.ts`);
`result` holds the raw HTML string from the webhook. -/
structure State where
  webhook : String
  topic : String
  result : Option String
  isLoading : Bool
  error : Option String
  rawResponse : Option Json

/-- Error-message prefix added by the handler's `catch` block. -/
def failPrefix : String := "Failed to write blog post: "

/-- Message thrown when `data?.[0]?.blog_post_html` is not a non-blank string. -/
def shapeMsg : String :=
  "Invalid or empty HTML content in webhook response. Expected [\x7b \"blog_post_html\": \"<html_string>\" \x7d]."

/-- The shape-validation part of `handleSubmit`: extracts
`data?.[0]?.blog_post_html` and requires it to be a string whose trim is
non-empty. -/
def extract (data : Json) : Except String String :=
  match jsFieldOpt (jsIndex0 data) "blog_post_html" with
  | some (Json.str s) => if jsTrim s = "" then Except.error shapeMsg else Except.ok s
  | _ => Except.error shapeMsg

/-- The first `updateState` call of the `try` path. -/
def start (st : State) : State :=
  { st with isLoading := true, error := none, result := none, rawResponse := none }

/-- The rest of `handleSubmit` after the request settles with outcome `o`. -/
def finish (st : State) (o : FetchOutcome) : State :=
  let st2 :=
    match o with
    | FetchOutcome.networkError m => { st with error := some (failPrefix ++ m) }
    | FetchOutcome.httpError status =>
      { st with error := some (failPrefix ++ "HTTP error! Status: " ++ toString status) }
    | FetchOutcome.jsonError m => { st with error := some (failPrefix ++ m) }
    | FetchOutcome.ok data =>
      let st1 := { st with rawResponse := some data }
      match extract data with
      | Except.ok s => { st1 with result := some s }
      | Except.error m => { st1 with error := some (failPrefix ++ m) }
  { st2 with isLoading := false }

/-- `handleSubmit` as a function of the state and of the network outcome; the
boolean records whether a `fetch` request was issued. -/
def handleSubmit (st : State) (o : FetchOutcome) : State × Bool :=
  if st.webhook = "" ∨ st.topic = "" then
    ({ st with error := some "Webhook URL and topic are required." }, false)
  else
    (finish (start st) o, true)

/-- The `disabled` attribute of the submit button:
`isLoading || !webhook || !topic`. -/
def submitDisabled (st : State) : Bool :=
  st.isLoading || st.webhook == "" || st.topic == ""

/-- The `disabled` attribute of the webhook input (`disabled={isLoading}`). -/
def webhookInputDisabled (st : State) : Bool := st.isLoading

/-- The `disabled` attribute of the blog-topic input (`disabled={isLoading}`). -/
def topicInputDisabled (st : State) : Bool := st.isLoading

/-- One click on the submit button: a disabled button fires no handler. -/
def clickDispatch (st : State) : State × Bool :=
  if submitDisabled st then (st, false)
  else (start st, true)

end BlogPostWriterTool

namespace RankTrackerTool

/-- The value rendered for a rank (`RankTrackerResult` in `types.ts`): the
keys `"Current Rank"` and `"Previous Rank"` hold either the raw rank value
from the webhook or one of the sentinel strings `'Not Found'` / `'N/A'`. -/
structure RankResult where
  currentRank : Json
  previousRank : Json

/-- State of the Rank Tracker tool (`RankTrackerState` in `types.ts`). -/
structure State where
  webhook : String
  domain : String
  keyword : String
  result : Option RankResult
  isLoading : Bool
  error : Option String
  rawResponse : Option Json

/-- Error-message prefix added by the handler's `catch` block. -/
def failPrefix : String := "Failed to check rank: "

/-- Message thrown when the response fails the structure validation. -/
def shapeMsg : String :=
  "Invalid data structure in webhook response. Expected an array with one object like: [\x7b \"current_rank\": number, \"previous_rank\": number \x7d]."

/-- The validation part of `handleSubmit`: takes `data?.[0]`, requires it to
be truthy and to carry defined `current_rank` and `previous_rank` properties,
and returns those two values. A falsy `data?.[0]` (in particular `null`,
which a direct property access would make throw) is rejected by the
`!responseData` test before any property is read. -/
def extract (data : Json) : Except String (Json × Json) :=
  let responseData := jsIndex0 data
  if jsTruthy responseData = false then Except.error shapeMsg
  else
    match responseData with
    | some v =>
      match jsProp v "current_rank" with
      | none => Except.error shapeMsg
      | some c =>
        match jsProp v "previous_rank" with
        | none => Except.error shapeMsg
        | some p => Except.ok (c, p)
    | none => Except.error shapeMsg

/-- The mapping from the validated webhook values to the rendered result: a
rank strictly equal to the number 0 becomes the sentinel string. -/
def toRankResult (c p : Json) : RankResult :=
  { currentRank := if isNumZero c then Json.str "Not Found" else c,
    previousRank := if isNumZero p then Json.str "N/A" else p }

/-- The first `updateState` call of the `try` path. -/
def start (st : State) : State :=
  { st with isLoading := true, error := none, result := none, rawResponse := none }

/-- The rest of `handleSubmit` after the request settles with outcome `o`. -/
def finish (st : State) (o : FetchOutcome) : State :=
  let st2 :=
    match o with
    | FetchOutcome.networkError m => { st with error := some (failPrefix ++ m) }
    | FetchOutcome.httpError status =>
      { st with error := some (failPrefix ++ "HTTP error! Status: " ++ toString status) }
    | FetchOutcome.jsonError m => { st with error := some (failPrefix ++ m) }
    | FetchOutcome.ok data =>
      let st1 := { st with rawResponse := some data }
      match extract data with
      | Except.ok cp => { st1 with result := some (toRankResult cp.1 cp.2) }
      | Except.error m => { st1 with error := some (failPrefix ++ m) }
  { st2 with isLoading := false }

/-- `handleSubmit` as a function of the state and of the network outcome; the
boolean records whether a `fetch` request was issued. -/
def handleSubmit (st : State) (o : FetchOutcome) : State × Bool :=
  if st.webhook = "" ∨ st.domain = "" ∨ st.keyword = "" then
    ({ st with error := some "Webhook URL, domain, and keyword are required." }, false)
  else
    (finish (start st) o, true)

/-- The `disabled` attribute of the submit button:
`isLoading || !webhook || !domain || !keyword`. -/
def submitDisabled (st : State) : Bool :=
  st.isLoading || st.webhook == "" || st.domain == "" || st.keyword == ""

/-- The `disabled` attribute of the webhook input (`disabled={isLoading}`). -/
def webhookInputDisabled (st : State) : Bool := st.isLoading

/-- The `disabled` attribute of the domain input (`disabled={isLoading}`). -/
def domainInputDisabled (st : State) : Bool := st.isLoading

/-- The `disabled` attribute of the keyword input (`disabled={isLoading}`). -/
def keywordInputDisabled (st : State) : Bool := st.isLoading

/-- One click on the submit button: a disabled button fires no handler. -/
def clickDispatch (st : State) : State × Bool :=
  if submitDisabled st then (st, false)
  else (start st, true)

end RankTrackerTool

/-- The four tool identifiers (`enum Tool` in `types.ts`). -/
inductive Tool where
  | onPageSEO : Tool
  | keywordGenerator : Tool
  | blogPostWriter : Tool
  | rankTracker : Tool
  deriving DecidableEq

/-- The string value of each enum member, used as the key inside the
persisted webhook mapping. -/
def Tool.key : Tool → String
  | Tool.onPageSEO => "On-Page SEO"
  | Tool.keywordGenerator => "Keyword Generator"
  | Tool.blogPostWriter => "Blog Post Writer"
  | Tool.rankTracker => "Rank Tracker"

/-- The value stored in `localStorage` under the single key
`n8n-seo-tool-webhooks`, abstracted through `JSON.parse`: `absent` models a
missing key (and the empty string, which both readers treat exactly like a
missing key because `'' ? _ : _` takes the else branch); `corrupt` models a
non-empty string rejected by `JSON.parse`; `value j` models a string that
`JSON.parse` maps to the JSON value `j`. `JSON.stringify` of a JSON value is
modelled as producing a string that parses back to the same value. -/
inductive StoreContent where
  | absent : StoreContent
  | corrupt : StoreContent
  | value (j : Json) : StoreContent

/-- Global app state (`AppState` in `types.ts`). -/
structure AppState where
  onPageSEO : OnPageSeoTool.State
  keywordGenerator : KeywordGeneratorTool.State
  blogPostWriter : BlogPostWriterTool.State
  rankTracker : RankTrackerTool.State

/-- The clean per-tool defaults used by `App` when nothing is restored. -/
def defaultOnPageState : OnPageSeoTool.State :=
  { webhook := "", url := "", result := none, isLoading := false, error := none,
    rawResponse := none }

/-- Clean default state of the Keyword Generator tool. -/
def defaultKeywordState : KeywordGeneratorTool.State :=
  { webhook := "", topic := "", result := none, isLoading := false, error := none,
    rawResponse := none }

/-- Clean default state of the Blog Post Writer tool. -/
def defaultBlogState : BlogPostWriterTool.State :=
  { webhook := "", topic := "", result := none, isLoading := false, error := none,
    rawResponse := none }

/-- Clean default state of the Rank Tracker tool. -/
def defaultRankState : RankTrackerTool.State :=
  { webhook := "", domain := "", keyword := "", result := none, isLoading := false,
    error := none, rawResponse := none }

/-- The fallback state `App` builds when `localStorage` is corrupt, and also
the state built from an empty webhook mapping. -/
def cleanAppState : AppState :=
  { onPageSEO := defaultOnPageState, keywordGenerator := defaultKeywordState,
    blogPostWriter := defaultBlogState, rankTracker := defaultRankState }

/-- Reading `initialWebhooks[toolKey] || ''` during start-up: a string value
is taken as the webhook (the empty string is falsy, so `|| ''` again yields
the empty string), a missing property yields `''`. The store is only ever
written with string values by `updateToolState`, so a non-string property
value — which only external tampering could produce — is also read as `''`. -/
def webhookFromStore (j : Json) (toolKey : String) : String :=
  match jsProp j toolKey with
  | some (Json.str s) => s
  | _ => ""

/-- The `useState` initialiser of `App`: parse the stored mapping and seed
each tool's state with its webhook and clean defaults; if `JSON.parse`
throws — or if the parsed value is `null`, on which the subsequent property
accesses throw — the `catch` block falls back to the clean state. -/
def initApp : StoreContent → AppState
  | StoreContent.absent => cleanAppState
  | StoreContent.corrupt => cleanAppState
  | StoreContent.value Json.null => cleanAppState
  | StoreContent.value j =>
    { onPageSEO := { defaultOnPageState with webhook := webhookFromStore j Tool.onPageSEO.key },
      keywordGenerator :=
        { defaultKeywordState with webhook := webhookFromStore j Tool.keywordGenerator.key },
      blogPostWriter :=
        { defaultBlogState with webhook := webhookFromStore j Tool.blogPostWriter.key },
      rankTracker :=
        { defaultRankState with webhook := webhookFromStore j Tool.rankTracker.key } }

/-- Setting the property `k` on a JavaScript object represented as an
association list with unique keys: replace the existing binding or append a
new one. -/
def setKey : List (String × Json) → String → Json → List (String × Json)
  | [], k, v => [(k, v)]
  | (k0, v0) :: t, k, v =>
    if k0 = k then (k, v) :: t else (k0, v0) :: setKey t k v

/-- The persistence branch of `updateToolState` when the update carries a
webhook: parse the stored mapping (a missing key or empty string yields `{}`),
assign `webhooks[tool] = w`, and write the result back. The boolean records
whether `localStorage.setItem` ran. A corrupt store makes `JSON.parse` throw
before the write; a stored `null` or primitive makes the strict-mode property
assignment throw; both are swallowed by the `catch` block, leaving the store
unchanged. A stored array accepts the assignment, but `JSON.stringify`
serialises only its index properties, so the array is written back as is. -/
def storeSetWebhook (store : StoreContent) (toolKey : String) (w : String) :
    StoreContent × Bool :=
  match store with
  | StoreContent.absent =>
    (StoreContent.value (Json.obj [(toolKey, Json.str w)]), true)
  | StoreContent.corrupt => (store, false)
  | StoreContent.value (Json.obj fields) =>
    (StoreContent.value (Json.obj (setKey fields toolKey (Json.str w))), true)
  | StoreContent.value (Json.arr elems) => (StoreContent.value (Json.arr elems), true)
  | StoreContent.value _ => (store, false)

/-- A partial update of the On-Page SEO state (`Partial<OnPageSeoState>`). -/
structure OnPageUpdate where
  webhook : Option String := none
  url : Option String := none
  result : Option (Option String) := none
  isLoading : Option Bool := none
  error : Option (Option String) := none
  rawResponse : Option (Option Json) := none

/-- A partial update of the Keyword Generator state. -/
structure KeywordUpdate where
  webhook : Option String := none
  topic : Option String := none
  result : Option (Option Json) := none
  isLoading : Option Bool := none
  error : Option (Option String) := none
  rawResponse : Option (Option Json) := none

/-- A partial update of the Blog Post Writer state. -/
structure BlogUpdate where
  webhook : Option String := none
  topic : Option String := none
  result : Option (Option String) := none
  isLoading : Option Bool := none
  error : Option (Option String) := none
  rawResponse : Option (Option Json) := none

/-- A partial update of the Rank Tracker state. -/
structure RankUpdate where
  webhook : Option String := none
  domain : Option String := none
  keyword : Option String := none
  result : Option (Option RankTrackerTool.RankResult) := none
  isLoading : Option Bool := none
  error : Option (Option String) := none
  rawResponse : Option (Option Json) := none

/-- The object spread `{ ...prevState[tool], ...newState }` for each state
shape: present keys of the update win. -/
def OnPageUpdate.apply (u : OnPageUpdate) (s : OnPageSeoTool.State) : OnPageSeoTool.State :=
  { webhook := u.webhook.getD s.webhook, url := u.url.getD s.url,
    result := u.result.getD s.result, isLoading := u.isLoading.getD s.isLoading,
    error := u.error.getD s.error, rawResponse := u.rawResponse.getD s.rawResponse }

/-- Spread-merge of a Keyword Generator partial update. -/
def KeywordUpdate.apply (u : KeywordUpdate) (s : KeywordGeneratorTool.State) :
    KeywordGeneratorTool.State :=
  { webhook := u.webhook.getD s.webhook, topic := u.topic.getD s.topic,
    result := u.result.getD s.result, isLoading := u.isLoading.getD s.isLoading,
    error := u.error.getD s.error, rawResponse := u.rawResponse.getD s.rawResponse }

/-- Spread-merge of a Blog Post Writer partial update. -/
def BlogUpdate.apply (u : BlogUpdate) (s : BlogPostWriterTool.State) :
    BlogPostWriterTool.State :=
  { webhook := u.webhook.getD s.webhook, topic := u.topic.getD s.topic,
    result := u.result.getD s.result, isLoading := u.isLoading.getD s.isLoading,
    error := u.error.getD s.error, rawResponse := u.rawResponse.getD s.rawResponse }

/-- Spread-merge of a Rank Tracker partial update. -/
def RankUpdate.apply (u : RankUpdate) (s : RankTrackerTool.State) : RankTrackerTool.State :=
  { webhook := u.webhook.getD s.webhook, domain := u.domain.getD s.domain,
    keyword := u.keyword.getD s.keyword, result := u.result.getD s.result,
    isLoading := u.isLoading.getD s.isLoading, error := u.error.getD s.error,
    rawResponse := u.rawResponse.getD s.rawResponse }

/-- A call `updateToolState(tool, newState)`: the tool identifier together
with the partial update for that tool's state shape. -/
inductive ToolUpdate where
  | onPage (u : OnPageUpdate) : ToolUpdate
  | keyword (u : KeywordUpdate) : ToolUpdate
  | blog (u : BlogUpdate) : ToolUpdate
  | rank (u : RankUpdate) : ToolUpdate

/-- The tool a `ToolUpdate` addresses. -/
def ToolUpdate.tool : ToolUpdate → Tool
  | ToolUpdate.onPage _ => Tool.onPageSEO
  | ToolUpdate.keyword _ => Tool.keywordGenerator
  | ToolUpdate.blog _ => Tool.blogPostWriter
  | ToolUpdate.rank _ => Tool.rankTracker

/-- The test `newState.webhook !== undefined` of `updateToolState`. -/
def ToolUpdate.webhookField : ToolUpdate → Option String
  | ToolUpdate.onPage u => u.webhook
  | ToolUpdate.keyword u => u.webhook
  | ToolUpdate.blog u => u.webhook
  | ToolUpdate.rank u => u.webhook

/-- The in-memory half of `updateToolState`: `setAppState` merges the partial
update into the addressed tool's record, leaving the other three untouched. -/
def ToolUpdate.applyApp : ToolUpdate → AppState → AppState
  | ToolUpdate.onPage u, app => { app with onPageSEO := u.apply app.onPageSEO }
  | ToolUpdate.keyword u, app => { app with keywordGenerator := u.apply app.keywordGenerator }
  | ToolUpdate.blog u, app => { app with blogPostWriter := u.apply app.blogPostWriter }
  | ToolUpdate.rank u, app => { app with rankTracker := u.apply app.rankTracker }

/-- Result of one `updateToolState` call: the store after the optional
persistence step, whether `localStorage.setItem` ran, and the new in-memory
app state. -/
structure UpdateResult where
  store : StoreContent
  wrote : Bool
  app : AppState

/-- `updateToolState` from `App`: persist the webhook when the update carries
one, then merge the update into the in-memory state. -/
def updateToolState (tu : ToolUpdate) (store : StoreContent) (app : AppState) :
    UpdateResult :=
  match tu.webhookField with
  | none => { store := store, wrote := false, app := tu.applyApp app }
  | some w =>
    let sw := storeSetWebhook store tu.tool.key w
    { store := sw.1, wrote := sw.2, app := tu.applyApp app }

/-- A store shape reachable by the application itself: the key is absent or
holds a serialised JSON object (every write of `updateToolState` stores an
object). -/
def storeMapLike : StoreContent → Bool
  | StoreContent.absent => true
  | StoreContent.value (Json.obj _) => true
  | _ => false

/-- A `ToolUpdate` that sets only the webhook of the given tool, as issued by
the `WebhookInput` change handler. -/
def webhookOnlyUpdate : Tool → String → ToolUpdate
  | Tool.onPageSEO, w => ToolUpdate.onPage { webhook := some w }
  | Tool.keywordGenerator, w => ToolUpdate.keyword { webhook := some w }
  | Tool.blogPostWriter, w => ToolUpdate.blog { webhook := some w }
  | Tool.rankTracker, w => ToolUpdate.rank { webhook := some w }

/-- The webhook field of the given tool's state. -/
def AppState.webhookOf : AppState → Tool → String
  | app, Tool.onPageSEO => app.onPageSEO.webhook
  | app, Tool.keywordGenerator => app.keywordGenerator.webhook
  | app, Tool.blogPostWriter => app.blogPostWriter.webhook
  | app, Tool.rankTracker => app.rankTracker.webhook

/-- All fields other than the webhooks are at their clean defaults. -/
def AppState.nonWebhookDefaults (app : AppState) : Prop :=
  app.onPageSEO.url = "" ∧ app.onPageSEO.result = none ∧
    app.onPageSEO.isLoading = false ∧ app.onPageSEO.error = none ∧
    app.onPageSEO.rawResponse = none ∧
  app.keywordGenerator.topic = "" ∧ app.keywordGenerator.result = none ∧
    app.keywordGenerator.isLoading = false ∧ app.keywordGenerator.error = none ∧
    app.keywordGenerator.rawResponse = none ∧
  app.blogPostWriter.topic = "" ∧ app.blogPostWriter.result = none ∧
    app.blogPostWriter.isLoading = false ∧ app.blogPostWriter.error = none ∧
    app.blogPostWriter.rawResponse = none ∧
  app.rankTracker.domain = "" ∧ app.rankTracker.keyword = "" ∧
    app.rankTracker.result = none ∧ app.rankTracker.isLoading = false ∧
    app.rankTracker.error = none ∧ app.rankTracker.rawResponse = none

/-- Boolean prefix test on character lists. -/
def hasPrefixL : List Char → List Char → Bool
  | [], _ => true
  | _ :: _, [] => false
  | a :: p, b :: l => a = b && hasPrefixL p l

/-- Boolean substring (contiguous) test on character lists. -/
def hasSubL (p : List Char) : List Char → Bool
  | [] => hasPrefixL p []
  | a :: t => hasPrefixL p (a :: t) || hasSubL p t

namespace Markdown

/-- The backtick character delimiting a code span. -/
def btChar : Char := Char.ofNat 96

/-- The asterisk character of the bold delimiter. -/
def starChar : Char := Char.ofNat 42

/-- The newline character, which the dot of the lazy regexes never matches. -/
def nlChar : Char := Char.ofNat 10

/-- The ampersand character. -/
def ampChar : Char := Char.ofNat 38

/-- The less-than character. -/
def ltChar : Char := Char.ofNat 60

/-- The greater-than character. -/
def gtChar : Char := Char.ofNat 62

/-- The double-quote character. -/
def quotChar : Char := Char.ofNat 34

/-- The single-quote character. -/
def aposChar : Char := Char.ofNat 39

/-- The single-character global replace `s.replace(/c/g, rep)`. -/
def replaceChar (c : Char) (rep : List Char) : List Char → List Char
  | [] => []
  | a :: t => if a = c then rep ++ replaceChar c rep t else a :: replaceChar c rep t

/-- The `escapeHtml` helper of `OnPageSeoTool.parseMarkdown`: five sequential
global replaces, ampersand first. -/
def escapeHtmlL (l : List Char) : List Char :=
  replaceChar aposChar "&#039;".data
    (replaceChar quotChar "&quot;".data
      (replaceChar gtChar "&gt;".data
        (replaceChar ltChar "&lt;".data
          (replaceChar ampChar "&amp;".data l))))

/-- One pass of the global lazy replace `` line.replace(/`(.*?)`/g, ...) ``
composed with escaping, as a left-to-right scanner. The second argument is
`none` outside a potential code span and `some acc` (content so far,
reversed) after an opening backtick. A closing backtick emits the escaped
content inside `<code>` tags; a newline or the end of input means the regex
attempt starting at the opening backtick fails, so that backtick and the
scanned content (which contains neither backtick nor newline, hence offers
no later match) are emitted literally. -/
def codeScan : List Char → Option (List Char) → List Char
  | [], none => []
  | [], some acc => btChar :: acc.reverse
  | a :: t, none =>
    if a = btChar then codeScan t (some []) else a :: codeScan t none
  | a :: t, some acc =>
    if a = btChar then
      "<code>".data ++ escapeHtmlL acc.reverse ++ "</code>".data ++ codeScan t none
    else if a = nlChar then (btChar :: acc.reverse) ++ a :: codeScan t none
    else codeScan t (some (a :: acc))

/-- The code-span substitution applied to a whole line. -/
def codeSub (l : List Char) : List Char := codeScan l none

/-- The contents of the code spans of a line, using the same pairing as
`codeScan`: the spans the lazy regex `` /`(.*?)`/g `` matches. -/
def spanScan : List Char → Option (List Char) → List (List Char)
  | [], _ => []
  | a :: t, none =>
    if a = btChar then spanScan t (some []) else spanScan t none
  | a :: t, some acc =>
    if a = btChar then acc.reverse :: spanScan t none
    else if a = nlChar then spanScan t none
    else spanScan t (some (a :: acc))

/-- Code-span contents of a line. -/
def spanContents (l : List Char) : List (List Char) := spanScan l none

/-- Code-span contents of a line, as strings. -/
def lineCodeSpans (s : String) : List String :=
  (spanContents s.data).map (fun l => String.mk l)

/-- Scanner state of the bold substitution `/\*\*(.*?)\*\*/g`: outside a
span, outside having just seen one asterisk, inside a span (content so far,
reversed), or inside having just seen one asterisk. -/
inductive BoldState where
  | out : BoldState
  | outStar : BoldState
  | insp (acc : List Char) : BoldState
  | inspStar (acc : List Char) : BoldState

/-- The global lazy replace of `**...**` by `<strong>...</strong>` as a
left-to-right scanner. When a pending opener cannot be closed before a
newline or the end of input, every regex attempt inside the scanned segment
also fails (the segment contains no consecutive asterisk pair), so the
segment is emitted literally. -/
def boldScan : List Char → BoldState → List Char
  | [], BoldState.out => []
  | [], BoldState.outStar => [starChar]
  | [], BoldState.insp acc => starChar :: starChar :: acc.reverse
  | [], BoldState.inspStar acc => starChar :: starChar :: acc.reverse ++ [starChar]
  | a :: t, BoldState.out =>
    if a = starChar then boldScan t BoldState.outStar else a :: boldScan t BoldState.out
  | a :: t, BoldState.outStar =>
    if a = starChar then boldScan t (BoldState.insp [])
    else starChar :: a :: boldScan t BoldState.out
  | a :: t, BoldState.insp acc =>
    if a = starChar then boldScan t (BoldState.inspStar acc)
    else if a = nlChar then starChar :: starChar :: acc.reverse ++ a :: boldScan t BoldState.out
    else boldScan t (BoldState.insp (a :: acc))
  | a :: t, BoldState.inspStar acc =>
    if a = starChar then
      "<strong>".data ++ acc.reverse ++ "</strong>".data ++ boldScan t BoldState.out
    else if a = nlChar then
      starChar :: starChar :: acc.reverse ++ starChar :: a :: boldScan t BoldState.out
    else boldScan t (BoldState.insp (a :: starChar :: acc))

/-- The bold substitution applied to a whole line. -/
def boldSub (l : List Char) : List Char := boldScan l BoldState.out

/-- The `processLine` helper: escape code spans first, then substitute bold
text. -/
def processLineL (l : List Char) : List Char := boldSub (codeSub l)

/-- `item.replace(/^\*   ?/, '')`: strip a leading asterisk followed by two
or (greedily) three spaces. -/
def stripListMarker : List Char → List Char
  | '*' :: ' ' :: ' ' :: ' ' :: t => t
  | '*' :: ' ' :: ' ' :: t => t
  | l => l

/-- `block.replace(/\n/g, '<br />')`. -/
def brSubst : List Char → List Char
  | [] => []
  | a :: t => if a = nlChar then "<br />".data ++ brSubst t else a :: brSubst t

/-- `text.split('\n\n')`: split on non-overlapping double newlines, left to
right. -/
def splitBlankAux : List Char → List Char → List (List Char)
  | acc, a :: b :: t =>
    if a = nlChar ∧ b = nlChar then acc.reverse :: splitBlankAux [] t
    else splitBlankAux (a :: acc) (b :: t)
  | acc, [a] => [(a :: acc).reverse]
  | acc, [] => [acc.reverse]

/-- Split a text into its double-newline-separated blocks. -/
def splitBlank (l : List Char) : List (List Char) := splitBlankAux [] l

/-- `block.split('\n')`. -/
def splitNlAux : List Char → List Char → List (List Char)
  | acc, [] => [acc.reverse]
  | acc, a :: t =>
    if a = nlChar then acc.reverse :: splitNlAux [] t else splitNlAux (a :: acc) t

/-- Split a block into its lines. -/
def splitNl (l : List Char) : List (List Char) := splitNlAux [] l

/-- Concatenation of a list of fragments (`.join('')`). -/
def joinL : List (List Char) → List Char
  | [] => []
  | a :: t => a ++ joinL t

/-- Rendering of one double-newline-separated block: a list when the trimmed
block starts with `* `, a heading when the block starts with `## `, otherwise
a paragraph with single newlines turned into `<br />`. -/
def renderBlock (bl : List Char) : List Char :=
  if hasPrefixL ('*' :: ' ' :: []) (trimJs bl) then
    "<ul>".data ++
      joinL ((splitNl bl).map
        (fun it => "<li>".data ++ processLineL (stripListMarker it) ++ "</li>".data)) ++
      "</ul>".data
  else if hasPrefixL ('#' :: '#' :: ' ' :: []) bl then
    "<h2>".data ++ processLineL (bl.drop 3) ++ "</h2>".data
  else
    "<p>".data ++ processLineL (brSubst bl) ++ "</p>".data

/-- The `parseMarkdown` function of `OnPageSeoTool`. -/
def parseMarkdown (text : String) : String :=
  if text = "" then ""
  else String.mk (joinL ((splitBlank text.data).map renderBlock))

end Markdown

/-! Claim-side definitions: statements of the specification in its own words,
to be compared with the behaviour of the definitions taken from the source. -/

/-- The Keyword Generator response contract in the specification's words: a
JSON array whose first element carries a `keywords` array. -/
def kwConformsClaim : Json → Bool
  | Json.arr (x :: _) =>
    match jsProp x "keywords" with
    | some (Json.arr _) => true
    | _ => false
  | _ => false

/-- The Keyword Generator contract as the code actually checks it: the value
reached by `data?.[0]?.keywords` — index 0 of an array, but also property
`"0"` of an object or the first character of a string — is an array. -/
def kwConformsLookup (d : Json) : Bool :=
  match jsFieldOpt (jsIndex0 d) "keywords" with
  | some (Json.arr _) => true
  | _ => false

/-- The Blog Post Writer / On-Page SEO contract via the `data?.[0]` lookup:
a non-empty string under `blog_post_html`. -/
def htmlConformsLookup (d : Json) : Bool :=
  match jsFieldOpt (jsIndex0 d) "blog_post_html" with
  | some (Json.str s) => s != ""
  | _ => false

/-- The Rank Tracker contract via the `data?.[0]` lookup: a truthy element
carrying defined `current_rank` and `previous_rank` properties. -/
def rtConformsLookup (d : Json) : Bool :=
  match jsIndex0 d with
  | some v =>
    jsTruthy (some v) && (jsProp v "current_rank").isSome && (jsProp v "previous_rank").isSome
  | none => false

/-- Validity of the keyword list in the specification's sense: the inner
validation of `handleSubmit` passes (an empty list, or a first element that
is an object carrying `keyword` and `intent` properties). -/
def kwInnerValid : List Json → Bool
  | [] => true
  | Json.obj fs :: _ => (lookupField fs "keyword").isSome && (lookupField fs "intent").isSome
  | _ => false

/-- Whether the Keyword Generator `try` block fails for an outcome: a
rejected fetch, a non-2xx status, a body that is not JSON, or a value the
shape validation rejects. -/
def kwOutcomeFails : FetchOutcome → Bool
  | FetchOutcome.networkError _ => true
  | FetchOutcome.httpError _ => true
  | FetchOutcome.jsonError _ => true
  | FetchOutcome.ok d =>
    match KeywordGeneratorTool.extract d with
    | Except.error _ => true
    | Except.ok _ => false

/-- Whether the On-Page SEO `try` block fails for an outcome. -/
def onPageOutcomeFails : FetchOutcome → Bool
  | FetchOutcome.networkError _ => true
  | FetchOutcome.httpError _ => true
  | FetchOutcome.jsonError _ => true
  | FetchOutcome.ok d =>
    match OnPageSeoTool.extract d with
    | Except.error _ => true
    | Except.ok _ => false

/-- Whether the Blog Post Writer `try` block fails for an outcome. -/
def blogOutcomeFails : FetchOutcome → Bool
  | FetchOutcome.networkError _ => true
  | FetchOutcome.httpError _ => true
  | FetchOutcome.jsonError _ => true
  | FetchOutcome.ok d =>
    match BlogPostWriterTool.extract d with
    | Except.error _ => true
    | Except.ok _ => false

/-- Whether the Rank Tracker `try` block fails for an outcome. -/
def rtOutcomeFails : FetchOutcome → Bool
  | FetchOutcome.networkError _ => true
  | FetchOutcome.httpError _ => true
  | FetchOutcome.jsonError _ => true
  | FetchOutcome.ok d =>
    match RankTrackerTool.extract d with
    | Except.error _ => true
    | Except.ok _ => false

/-- The fields of the stored mapping, for store contents the application can
itself produce. -/
def storeFields : StoreContent → List (String × Json)
  | StoreContent.value (Json.obj fs) => fs
  | _ => []

/-- Per-character entity substitution, in the words of the claim: each of the
five special characters is replaced by its HTML entity, any other character
is kept. -/
def entityOf (c : Char) : List Char :=
  if c = Markdown.ampChar then "&amp;".data
  else if c = Markdown.ltChar then "&lt;".data
  else if c = Markdown.gtChar then "&gt;".data
  else if c = Markdown.quotChar then "&quot;".data
  else if c = Markdown.aposChar then "&#039;".data
  else [c]

/-- Escaping as the claim words it: every occurrence of a special character,
independently, becomes its entity. -/
def escapeHtmlSpec : List Char → List Char
  | [] => []
  | c :: t => entityOf c ++ escapeHtmlSpec t

/-! Sample states with non-empty required inputs, used by witnesses and
counterexamples. -/

/-- A Keyword Generator state with the required inputs filled in. -/
def sampleKeywordState : KeywordGeneratorTool.State :=
  { webhook := "https://n8n.example.com/webhook/kw", topic := "ai automation",
    result := none, isLoading := false, error := none, rawResponse := none }

/-- An On-Page SEO state with the required inputs filled in. -/
def sampleOnPageState : OnPageSeoTool.State :=
  { webhook := "https://n8n.example.com/webhook/seo", url := "https://example.com/page",
    result := none, isLoading := false, error := none, rawResponse := none }

/-- A Blog Post Writer state with the required inputs filled in. -/
def sampleBlogState : BlogPostWriterTool.State :=
  { webhook := "https://n8n.example.com/webhook/blog", topic := "ai automation",
    result := none, isLoading := false, error := none, rawResponse := none }

/-- A Rank Tracker state with the required inputs filled in. -/
def sampleRankState : RankTrackerTool.State :=
  { webhook := "https://n8n.example.com/webhook/rank", domain := "example.com",
    keyword := "ai automation", result := none, isLoading := false, error := none,
    rawResponse := none }

/-! Helper lemmas. -/

theorem hasPrefixL_append_self (p s : List Char) : hasPrefixL p (p ++ s) = true := by
  induction p with
  | nil => simp [hasPrefixL]
  | cons a t ih => simp [hasPrefixL, ih]

theorem hasSubL_of_prefix {p l : List Char} (h : hasPrefixL p l = true) :
    hasSubL p l = true := by
  cases l with
  | nil => simpa [hasSubL] using h
  | cons a t => simp [hasSubL, h]

theorem hasSubL_self_append (p s : List Char) : hasSubL p (p ++ s) = true :=
  hasSubL_of_prefix (hasPrefixL_append_self p s)

theorem hasSubL_cons {p t : List Char} (a : Char) (h : hasSubL p t = true) :
    hasSubL p (a :: t) = true := by
  simp [hasSubL, h]

theorem hasSubL_append_left {p s : List Char} (x : List Char) (h : hasSubL p s = true) :
    hasSubL p (x ++ s) = true := by
  induction x with
  | nil => simpa using h
  | cons a t ih => simpa using hasSubL_cons a ih

theorem lookupField_setKey (fs : List (String × Json)) (k : String) (v : Json) :
    lookupField (setKey fs k v) k = some v := by
  induction fs with
  | nil => simp [setKey, lookupField]
  | cons p t ih =>
    rcases p with ⟨k0, v0⟩
    by_cases h : k0 = k
    · simp [setKey, h, lookupField]
    · simp [setKey, h, lookupField, ih]

namespace Markdown

theorem replaceChar_append (c : Char) (r a b : List Char) :
    replaceChar c r (a ++ b) = replaceChar c r a ++ replaceChar c r b := by
  induction a with
  | nil => simp [replaceChar]
  | cons x t ih => by_cases h : x = c <;> simp [replaceChar, h, ih]

theorem replaceChar_cons (c : Char) (r : List Char) (a : Char) (t : List Char) :
    replaceChar c r (a :: t) = (if a = c then r else [a]) ++ replaceChar c r t := by
  by_cases h : a = c <;> simp [replaceChar, h]

theorem escapeHtmlL_cons (c : Char) (t : List Char) :
    escapeHtmlL (c :: t) = entityOf c ++ escapeHtmlL t := by
  unfold escapeHtmlL
  rw [replaceChar_cons, replaceChar_append, replaceChar_append, replaceChar_append,
    replaceChar_append]
  congr 1
  by_cases h1 : c = ampChar
  · subst h1; decide
  by_cases h2 : c = ltChar
  · subst h2; decide
  by_cases h3 : c = gtChar
  · subst h3; decide
  by_cases h4 : c = quotChar
  · subst h4; decide
  by_cases h5 : c = aposChar
  · subst h5; decide
  simp [replaceChar, entityOf, h1, h2, h3, h4, h5]

theorem escapeHtmlL_eq_spec (l : List Char) : escapeHtmlL l = escapeHtmlSpec l := by
  induction l with
  | nil => simp [escapeHtmlL, replaceChar, escapeHtmlSpec]
  | cons c t ih => rw [escapeHtmlL_cons, ih]; rfl

theorem span_escaped (c : List Char) :
    ∀ (l : List Char) (st : Option (List Char)), c ∈ spanScan l st →
      hasSubL ("<code>".data ++ escapeHtmlL c ++ "</code>".data) (codeScan l st) = true := by
  intro l
  induction l with
  | nil =>
    intro st h
    simp [spanScan] at h
  | cons a t ih =>
    intro st h
    cases st with
    | none =>
      by_cases hb : a = btChar
      · rw [spanScan, if_pos hb] at h
        rw [codeScan, if_pos hb]
        exact ih (some []) h
      · rw [spanScan, if_neg hb] at h
        rw [codeScan, if_neg hb]
        exact hasSubL_cons a (ih none h)
    | some acc =>
      by_cases hb : a = btChar
      · rw [spanScan, if_pos hb] at h
        rw [codeScan, if_pos hb]
        rcases List.mem_cons.mp h with h | h
        · rw [h]
          rw [show "<code>".data ++ escapeHtmlL acc.reverse ++ "</code>".data ++ codeScan t none =
              ("<code>".data ++ escapeHtmlL acc.reverse ++ "</code>".data) ++ codeScan t none by
            simp]
          exact hasSubL_self_append _ _
        · rw [show "<code>".data ++ escapeHtmlL acc.reverse ++ "</code>".data ++ codeScan t none =
              ("<code>".data ++ escapeHtmlL acc.reverse ++ "</code>".data) ++ codeScan t none by
            simp]
          exact hasSubL_append_left _ (ih none h)
      · by_cases hn : a = nlChar
        · rw [spanScan, if_neg hb, if_pos hn] at h
          rw [codeScan, if_neg hb, if_pos hn]
          exact hasSubL_cons btChar (hasSubL_append_left _ (hasSubL_cons a (ih none h)))
        · rw [spanScan, if_neg hb, if_neg hn] at h
          rw [codeScan, if_neg hb, if_neg hn]
          exact ih (some (a :: acc)) h

end Markdown

theorem kw_handleSubmit_run (st : KeywordGeneratorTool.State)
    (o : FetchOutcome) (hw : st.webhook ≠ "") (ht : st.topic ≠ "") :
    KeywordGeneratorTool.handleSubmit st o =
      (KeywordGeneratorTool.finish (KeywordGeneratorTool.start st) o, true) := by
  unfold KeywordGeneratorTool.handleSubmit
  rw [if_neg (not_or.mpr ⟨hw, ht⟩)]

theorem onPage_handleSubmit_run (st : OnPageSeoTool.State)
    (o : FetchOutcome) (hw : st.webhook ≠ "") (hu : st.url ≠ "") :
    OnPageSeoTool.handleSubmit st o =
      (OnPageSeoTool.finish (OnPageSeoTool.start st) o, true) := by
  unfold OnPageSeoTool.handleSubmit
  rw [if_neg (not_or.mpr ⟨hw, hu⟩)]

theorem blog_handleSubmit_run (st : BlogPostWriterTool.State)
    (o : FetchOutcome) (hw : st.webhook ≠ "") (ht : st.topic ≠ "") :
    BlogPostWriterTool.handleSubmit st o =
      (BlogPostWriterTool.finish (BlogPostWriterTool.start st) o, true) := by
  unfold BlogPostWriterTool.handleSubmit
  rw [if_neg (not_or.mpr ⟨hw, ht⟩)]

theorem rt_handleSubmit_run (st : RankTrackerTool.State)
    (o : FetchOutcome) (hw : st.webhook ≠ "") (hd : st.domain ≠ "") (hk : st.keyword ≠ "") :
    RankTrackerTool.handleSubmit st o =
      (RankTrackerTool.finish (RankTrackerTool.start st) o, true) := by
  unfold RankTrackerTool.handleSubmit
  rw [if_neg]
  intro hor
  rcases hor with h | h | h
  · exact hw h
  · exact hd h
  · exact hk h

theorem kw_extract_of_nonconforming (d : Json) (h : kwConformsLookup d = false) :
    KeywordGeneratorTool.extract d = Except.error KeywordGeneratorTool.shapeMsg := by
  unfold kwConformsLookup at h
  cases hv : jsFieldOpt (jsIndex0 d) "keywords" with
  | none => simp [KeywordGeneratorTool.extract, hv]
  | some v =>
    cases v <;> rw [hv] at h <;> simp at h <;> simp [KeywordGeneratorTool.extract, hv]

theorem blog_extract_of_nonconforming (d : Json) (h : htmlConformsLookup d = false) :
    BlogPostWriterTool.extract d = Except.error BlogPostWriterTool.shapeMsg := by
  unfold htmlConformsLookup at h
  cases hv : jsFieldOpt (jsIndex0 d) "blog_post_html" with
  | none => simp [BlogPostWriterTool.extract, hv]
  | some v =>
    cases v with
    | str s =>
      rw [hv] at h
      simp at h
      subst h
      simp [BlogPostWriterTool.extract, hv]
      decide
    | _ => simp [BlogPostWriterTool.extract, hv]

theorem onPage_extract_of_nonconforming (d : Json) (h : htmlConformsLookup d = false) :
    OnPageSeoTool.extract d = Except.error OnPageSeoTool.shapeMsg := by
  unfold htmlConformsLookup at h
  cases hv : jsFieldOpt (jsIndex0 d) "blog_post_html" with
  | none => simp [OnPageSeoTool.extract, hv]
  | some v =>
    cases v with
    | str s =>
      rw [hv] at h
      simp at h
      subst h
      simp [OnPageSeoTool.extract, hv]
      decide
    | _ => simp [OnPageSeoTool.extract, hv]

theorem rt_extract_of_nonconforming (d : Json) (h : rtConformsLookup d = false) :
    RankTrackerTool.extract d = Except.error RankTrackerTool.shapeMsg := by
  unfold rtConformsLookup at h
  cases hv : jsIndex0 d with
  | none => simp [RankTrackerTool.extract, hv, jsTruthy]
  | some v =>
    rw [hv] at h
    by_cases htr : jsTruthy (some v) = false
    · simp [RankTrackerTool.extract, hv, htr]
    · have htr' : jsTruthy (some v) = true := by
        cases hbb : jsTruthy (some v) <;> simp_all
      cases hc : jsProp v "current_rank" with
      | none => simp [RankTrackerTool.extract, hv, htr', hc]
      | some c =>
        cases hp : jsProp v "previous_rank" with
        | none => simp [RankTrackerTool.extract, hv, htr', hc, hp]
        | some p => simp [htr', hc, hp] at h

/-! Claim C5. -/

/-- C5: if the value stored under the local-storage key cannot be parsed as
JSON, start-up does not fail: the application falls back to a clean initial
state in which every tool's webhook is the empty string, all query fields
are empty, `result` and `error` are `null`, and `isLoading` is `false`. -/
theorem claim5_corrupt_store_fallback :
    initApp StoreContent.corrupt =
      { onPageSEO :=
          { webhook := "", url := "", result := none, isLoading := false,
            error := none, rawResponse := none },
        keywordGenerator :=
          { webhook := "", topic := "", result := none, isLoading := false,
            error := none, rawResponse := none },
        blogPostWriter :=
          { webhook := "", topic := "", result := none, isLoading := false,
            error := none, rawResponse := none },
        rankTracker :=
          { webhook := "", domain := "", keyword := "", result := none,
            isLoading := false, error := none, rawResponse := none } } := rfl

/-! Claim C9. -/

/-- C9: for every tool, invoking the submit handler while a required input
field is empty sets the tool's `required` error message and returns without
issuing a network request and without modifying `result`, `rawResponse` or
`isLoading` (the returned state changes only the `error` field, and the
issued flag is `false`). -/
theorem claim9_required_fields_guard :
    (∀ (st : KeywordGeneratorTool.State) (o : FetchOutcome), st.webhook = "" ∨ st.topic = "" →
      KeywordGeneratorTool.handleSubmit st o =
        ({ st with error := some "Webhook URL and topic are required." }, false)) ∧
    (∀ (st : OnPageSeoTool.State) (o : FetchOutcome), st.webhook = "" ∨ st.url = "" →
      OnPageSeoTool.handleSubmit st o =
        ({ st with error := some "Webhook URL and page URL are required." }, false)) ∧
    (∀ (st : BlogPostWriterTool.State) (o : FetchOutcome), st.webhook = "" ∨ st.topic = "" →
      BlogPostWriterTool.handleSubmit st o =
        ({ st with error := some "Webhook URL and topic are required." }, false)) ∧
    (∀ (st : RankTrackerTool.State) (o : FetchOutcome),
      st.webhook = "" ∨ st.domain = "" ∨ st.keyword = "" →
      RankTrackerTool.handleSubmit st o =
        ({ st with error := some "Webhook URL, domain, and keyword are required." }, false)) := by
  refine ⟨?_, ?_, ?_, ?_⟩ <;> intro st o h
  · unfold KeywordGeneratorTool.handleSubmit; rw [if_pos h]
  · unfold OnPageSeoTool.handleSubmit; rw [if_pos h]
  · unfold BlogPostWriterTool.handleSubmit; rw [if_pos h]
  · unfold RankTrackerTool.handleSubmit; rw [if_pos h]

/-- Witness for C9 at concrete states with one empty required field each. -/
theorem claim9_required_fields_guard_witness :
    KeywordGeneratorTool.handleSubmit { sampleKeywordState with topic := "" }
        (FetchOutcome.httpError 500) =
      ({ sampleKeywordState with
          topic := "", error := some "Webhook URL and topic are required." }, false) ∧
    OnPageSeoTool.handleSubmit { sampleOnPageState with url := "" }
        (FetchOutcome.httpError 500) =
      ({ sampleOnPageState with
          url := "", error := some "Webhook URL and page URL are required." }, false) ∧
    BlogPostWriterTool.handleSubmit { sampleBlogState with webhook := "" }
        (FetchOutcome.httpError 500) =
      ({ sampleBlogState with
          webhook := "", error := some "Webhook URL and topic are required." }, false) ∧
    RankTrackerTool.handleSubmit { sampleRankState with keyword := "" }
        (FetchOutcome.httpError 500) =
      ({ sampleRankState with
          keyword := "", error := some "Webhook URL, domain, and keyword are required." },
        false) :=
  ⟨claim9_required_fields_guard.1 _ _ (Or.inr rfl),
    claim9_required_fields_guard.2.1 _ _ (Or.inr rfl),
    claim9_required_fields_guard.2.2.1 _ _ (Or.inl rfl),
    claim9_required_fields_guard.2.2.2 _ _ (Or.inr (Or.inr rfl))⟩

/-! Claim C7. -/

/-- C7: for every tool, while that tool's request is in flight (`isLoading`
true), its submit button and all its input fields are disabled; a click on
the disabled button dispatches no handler, so a second request for the same
tool can never be started before the first completes; the completion step
(`finish`) is the only transition clearing `isLoading`, and it always does,
while the request-starting step keeps `isLoading` set (the model has no
timeout or cancellation transition, matching the code). -/
theorem claim7_in_flight_lock :
    (∀ st : KeywordGeneratorTool.State, st.isLoading = true →
      KeywordGeneratorTool.clickDispatch st = (st, false) ∧
      KeywordGeneratorTool.submitDisabled st = true ∧
      KeywordGeneratorTool.webhookInputDisabled st = true ∧
      KeywordGeneratorTool.topicInputDisabled st = true ∧
      (∀ o, (KeywordGeneratorTool.finish st o).isLoading = false) ∧
      (KeywordGeneratorTool.start st).isLoading = true) ∧
    (∀ st : OnPageSeoTool.State, st.isLoading = true →
      OnPageSeoTool.clickDispatch st = (st, false) ∧
      OnPageSeoTool.submitDisabled st = true ∧
      OnPageSeoTool.webhookInputDisabled st = true ∧
      OnPageSeoTool.urlInputDisabled st = true ∧
      (∀ o, (OnPageSeoTool.finish st o).isLoading = false) ∧
      (OnPageSeoTool.start st).isLoading = true) ∧
    (∀ st : BlogPostWriterTool.State, st.isLoading = true →
      BlogPostWriterTool.clickDispatch st = (st, false) ∧
      BlogPostWriterTool.submitDisabled st = true ∧
      BlogPostWriterTool.webhookInputDisabled st = true ∧
      BlogPostWriterTool.topicInputDisabled st = true ∧
      (∀ o, (BlogPostWriterTool.finish st o).isLoading = false) ∧
      (BlogPostWriterTool.start st).isLoading = true) ∧
    (∀ st : RankTrackerTool.State, st.isLoading = true →
      RankTrackerTool.clickDispatch st = (st, false) ∧
      RankTrackerTool.submitDisabled st = true ∧
      RankTrackerTool.webhookInputDisabled st = true ∧
      RankTrackerTool.domainInputDisabled st = true ∧
      RankTrackerTool.keywordInputDisabled st = true ∧
      (∀ o, (RankTrackerTool.finish st o).isLoading = false) ∧
      (RankTrackerTool.start st).isLoading = true) := by
  refine ⟨?_, ?_, ?_, ?_⟩ <;> intro st h
  · have hd : KeywordGeneratorTool.submitDisabled st = true := by
      simp [KeywordGeneratorTool.submitDisabled, h]
    refine ⟨by simp [KeywordGeneratorTool.clickDispatch, hd], hd, h, h, ?_, rfl⟩
    intro o
    cases o with
    | ok d =>
      cases hext : KeywordGeneratorTool.extract d <;>
        simp [KeywordGeneratorTool.finish, hext]
    | networkError m => simp [KeywordGeneratorTool.finish]
    | httpError n => simp [KeywordGeneratorTool.finish]
    | jsonError m => simp [KeywordGeneratorTool.finish]
  · have hd : OnPageSeoTool.submitDisabled st = true := by
      simp [OnPageSeoTool.submitDisabled, h]
    refine ⟨by simp [OnPageSeoTool.clickDispatch, hd], hd, h, h, ?_, rfl⟩
    intro o
    cases o with
    | ok d =>
      cases hext : OnPageSeoTool.extract d <;>
        simp [OnPageSeoTool.finish, hext]
    | networkError m => simp [OnPageSeoTool.finish]
    | httpError n => simp [OnPageSeoTool.finish]
    | jsonError m => simp [OnPageSeoTool.finish]
  · have hd : BlogPostWriterTool.submitDisabled st = true := by
      simp [BlogPostWriterTool.submitDisabled, h]
    refine ⟨by simp [BlogPostWriterTool.clickDispatch, hd], hd, h, h, ?_, rfl⟩
    intro o
    cases o with
    | ok d =>
      cases hext : BlogPostWriterTool.extract d <;>
        simp [BlogPostWriterTool.finish, hext]
    | networkError m => simp [BlogPostWriterTool.finish]
    | httpError n => simp [BlogPostWriterTool.finish]
    | jsonError m => simp [BlogPostWriterTool.finish]
  · have hd : RankTrackerTool.submitDisabled st = true := by
      simp [RankTrackerTool.submitDisabled, h]
    refine ⟨by simp [RankTrackerTool.clickDispatch, hd], hd, h, h, h, ?_, rfl⟩
    intro o
    cases o with
    | ok d =>
      cases hext : RankTrackerTool.extract d <;>
        simp [RankTrackerTool.finish, hext]
    | networkError m => simp [RankTrackerTool.finish]
    | httpError n => simp [RankTrackerTool.finish]
    | jsonError m => simp [RankTrackerTool.finish]

/-- Witness for C7 at concrete in-flight states of all four tools. -/
theorem claim7_in_flight_lock_witness :
    (KeywordGeneratorTool.clickDispatch { sampleKeywordState with isLoading := true } =
        ({ sampleKeywordState with isLoading := true }, false) ∧
      KeywordGeneratorTool.submitDisabled { sampleKeywordState with isLoading := true } = true ∧
      KeywordGeneratorTool.webhookInputDisabled { sampleKeywordState with isLoading := true }
          = true ∧
      KeywordGeneratorTool.topicInputDisabled { sampleKeywordState with isLoading := true }
          = true ∧
      (∀ o, (KeywordGeneratorTool.finish { sampleKeywordState with isLoading := true } o).isLoading
          = false) ∧
      (KeywordGeneratorTool.start { sampleKeywordState with isLoading := true }).isLoading
          = true) ∧
    (OnPageSeoTool.clickDispatch { sampleOnPageState with isLoading := true } =
        ({ sampleOnPageState with isLoading := true }, false) ∧
      OnPageSeoTool.submitDisabled { sampleOnPageState with isLoading := true } = true ∧
      OnPageSeoTool.webhookInputDisabled { sampleOnPageState with isLoading := true } = true ∧
      OnPageSeoTool.urlInputDisabled { sampleOnPageState with isLoading := true } = true ∧
      (∀ o, (OnPageSeoTool.finish { sampleOnPageState with isLoading := true } o).isLoading
          = false) ∧
      (OnPageSeoTool.start { sampleOnPageState with isLoading := true }).isLoading = true) ∧
    (BlogPostWriterTool.clickDispatch { sampleBlogState with isLoading := true } =
        ({ sampleBlogState with isLoading := true }, false) ∧
      BlogPostWriterTool.submitDisabled { sampleBlogState with isLoading := true } = true ∧
      BlogPostWriterTool.webhookInputDisabled { sampleBlogState with isLoading := true }
          = true ∧
      BlogPostWriterTool.topicInputDisabled { sampleBlogState with isLoading := true } = true ∧
      (∀ o, (BlogPostWriterTool.finish { sampleBlogState with isLoading := true } o).isLoading
          = false) ∧
      (BlogPostWriterTool.start { sampleBlogState with isLoading := true }).isLoading = true) ∧
    (RankTrackerTool.clickDispatch { sampleRankState with isLoading := true } =
        ({ sampleRankState with isLoading := true }, false) ∧
      RankTrackerTool.submitDisabled { sampleRankState with isLoading := true } = true ∧
      RankTrackerTool.webhookInputDisabled { sampleRankState with isLoading := true } = true ∧
      RankTrackerTool.domainInputDisabled { sampleRankState with isLoading := true } = true ∧
      RankTrackerTool.keywordInputDisabled { sampleRankState with isLoading := true } = true ∧
      (∀ o, (RankTrackerTool.finish { sampleRankState with isLoading := true } o).isLoading
          = false) ∧
      (RankTrackerTool.start { sampleRankState with isLoading := true }).isLoading = true) :=
  ⟨claim7_in_flight_lock.1 _ rfl, claim7_in_flight_lock.2.1 _ rfl,
    claim7_in_flight_lock.2.2.1 _ rfl, claim7_in_flight_lock.2.2.2 _ rfl⟩

theorem kw_finish_fail (st : KeywordGeneratorTool.State)
    (o : FetchOutcome) (hf : kwOutcomeFails o = true) :
    (∃ m, (KeywordGeneratorTool.finish st o).error
        = some (KeywordGeneratorTool.failPrefix ++ m)) ∧
    (KeywordGeneratorTool.finish st o).result = st.result ∧
    (KeywordGeneratorTool.finish st o).isLoading = false := by
  cases o with
  | networkError m =>
    exact ⟨⟨m, by simp [KeywordGeneratorTool.finish]⟩, by simp [KeywordGeneratorTool.finish],
      by simp [KeywordGeneratorTool.finish]⟩
  | httpError n =>
    exact ⟨⟨"HTTP error! Status: " ++ toString n,
        by simp [KeywordGeneratorTool.finish, String.append_assoc]⟩,
      by simp [KeywordGeneratorTool.finish], by simp [KeywordGeneratorTool.finish]⟩
  | jsonError m =>
    exact ⟨⟨m, by simp [KeywordGeneratorTool.finish]⟩, by simp [KeywordGeneratorTool.finish],
      by simp [KeywordGeneratorTool.finish]⟩
  | ok d =>
    cases hext : KeywordGeneratorTool.extract d with
    | ok v => simp [kwOutcomeFails, hext] at hf
    | error m =>
      exact ⟨⟨m, by simp [KeywordGeneratorTool.finish, hext]⟩,
        by simp [KeywordGeneratorTool.finish, hext],
        by simp [KeywordGeneratorTool.finish, hext]⟩

theorem onPage_finish_fail (st : OnPageSeoTool.State)
    (o : FetchOutcome) (hf : onPageOutcomeFails o = true) :
    (∃ m, (OnPageSeoTool.finish st o).error = some (OnPageSeoTool.failPrefix ++ m)) ∧
    (OnPageSeoTool.finish st o).result = st.result ∧
    (OnPageSeoTool.finish st o).isLoading = false := by
  cases o with
  | networkError m =>
    exact ⟨⟨m, by simp [OnPageSeoTool.finish]⟩, by simp [OnPageSeoTool.finish],
      by simp [OnPageSeoTool.finish]⟩
  | httpError n =>
    exact ⟨⟨"HTTP error! Status: " ++ toString n,
        by simp [OnPageSeoTool.finish, String.append_assoc]⟩,
      by simp [OnPageSeoTool.finish], by simp [OnPageSeoTool.finish]⟩
  | jsonError m =>
    exact ⟨⟨m, by simp [OnPageSeoTool.finish]⟩, by simp [OnPageSeoTool.finish],
      by simp [OnPageSeoTool.finish]⟩
  | ok d =>
    cases hext : OnPageSeoTool.extract d with
    | ok v => simp [onPageOutcomeFails, hext] at hf
    | error m =>
      exact ⟨⟨m, by simp [OnPageSeoTool.finish, hext]⟩,
        by simp [OnPageSeoTool.finish, hext], by simp [OnPageSeoTool.finish, hext]⟩

theorem blog_finish_fail (st : BlogPostWriterTool.State)
    (o : FetchOutcome) (hf : blogOutcomeFails o = true) :
    (∃ m, (BlogPostWriterTool.finish st o).error
        = some (BlogPostWriterTool.failPrefix ++ m)) ∧
    (BlogPostWriterTool.finish st o).result = st.result ∧
    (BlogPostWriterTool.finish st o).isLoading = false := by
  cases o with
  | networkError m =>
    exact ⟨⟨m, by simp [BlogPostWriterTool.finish]⟩, by simp [BlogPostWriterTool.finish],
      by simp [BlogPostWriterTool.finish]⟩
  | httpError n =>
    exact ⟨⟨"HTTP error! Status: " ++ toString n,
        by simp [BlogPostWriterTool.finish, String.append_assoc]⟩,
      by simp [BlogPostWriterTool.finish], by simp [BlogPostWriterTool.finish]⟩
  | jsonError m =>
    exact ⟨⟨m, by simp [BlogPostWriterTool.finish]⟩, by simp [BlogPostWriterTool.finish],
      by simp [BlogPostWriterTool.finish]⟩
  | ok d =>
    cases hext : BlogPostWriterTool.extract d with
    | ok v => simp [blogOutcomeFails, hext] at hf
    | error m =>
      exact ⟨⟨m, by simp [BlogPostWriterTool.finish, hext]⟩,
        by simp [BlogPostWriterTool.finish, hext],
        by simp [BlogPostWriterTool.finish, hext]⟩

theorem rt_finish_fail (st : RankTrackerTool.State)
    (o : FetchOutcome) (hf : rtOutcomeFails o = true) :
    (∃ m, (RankTrackerTool.finish st o).error = some (RankTrackerTool.failPrefix ++ m)) ∧
    (RankTrackerTool.finish st o).result = st.result ∧
    (RankTrackerTool.finish st o).isLoading = false := by
  cases o with
  | networkError m =>
    exact ⟨⟨m, by simp [RankTrackerTool.finish]⟩, by simp [RankTrackerTool.finish],
      by simp [RankTrackerTool.finish]⟩
  | httpError n =>
    exact ⟨⟨"HTTP error! Status: " ++ toString n,
        by simp [RankTrackerTool.finish, String.append_assoc]⟩,
      by simp [RankTrackerTool.finish], by simp [RankTrackerTool.finish]⟩
  | jsonError m =>
    exact ⟨⟨m, by simp [RankTrackerTool.finish]⟩, by simp [RankTrackerTool.finish],
      by simp [RankTrackerTool.finish]⟩
  | ok d =>
    cases hext : RankTrackerTool.extract d with
    | ok v => simp [rtOutcomeFails, hext] at hf
    | error m =>
      exact ⟨⟨m, by simp [RankTrackerTool.finish, hext]⟩,
        by simp [RankTrackerTool.finish, hext], by simp [RankTrackerTool.finish, hext]⟩

/-! Claim C2. -/

/-- C2: for every failure of a submit action — rejected fetch, non-2xx
status, JSON parse failure, or a response shape the validation rejects — the
handler catches the exception and sets an error message prefixed with the
tool's failure text, leaves `result` equal to `null` (it was reset when the
request started, so no partial result is rendered), and resets `isLoading`
to `false`; exactly one request was issued for the invocation (the model has
no retry transition). -/
theorem claim2_failures_surfaced :
    (∀ (st : KeywordGeneratorTool.State) (o : FetchOutcome),
      st.webhook ≠ "" → st.topic ≠ "" → kwOutcomeFails o = true →
      (∃ m, (KeywordGeneratorTool.handleSubmit st o).1.error
          = some (KeywordGeneratorTool.failPrefix ++ m)) ∧
      (KeywordGeneratorTool.handleSubmit st o).1.result = none ∧
      (KeywordGeneratorTool.handleSubmit st o).1.isLoading = false ∧
      (KeywordGeneratorTool.handleSubmit st o).2 = true) ∧
    (∀ (st : OnPageSeoTool.State) (o : FetchOutcome),
      st.webhook ≠ "" → st.url ≠ "" → onPageOutcomeFails o = true →
      (∃ m, (OnPageSeoTool.handleSubmit st o).1.error
          = some (OnPageSeoTool.failPrefix ++ m)) ∧
      (OnPageSeoTool.handleSubmit st o).1.result = none ∧
      (OnPageSeoTool.handleSubmit st o).1.isLoading = false ∧
      (OnPageSeoTool.handleSubmit st o).2 = true) ∧
    (∀ (st : BlogPostWriterTool.State) (o : FetchOutcome),
      st.webhook ≠ "" → st.topic ≠ "" → blogOutcomeFails o = true →
      (∃ m, (BlogPostWriterTool.handleSubmit st o).1.error
          = some (BlogPostWriterTool.failPrefix ++ m)) ∧
      (BlogPostWriterTool.handleSubmit st o).1.result = none ∧
      (BlogPostWriterTool.handleSubmit st o).1.isLoading = false ∧
      (BlogPostWriterTool.handleSubmit st o).2 = true) ∧
    (∀ (st : RankTrackerTool.State) (o : FetchOutcome),
      st.webhook ≠ "" → st.domain ≠ "" → st.keyword ≠ "" → rtOutcomeFails o = true →
      (∃ m, (RankTrackerTool.handleSubmit st o).1.error
          = some (RankTrackerTool.failPrefix ++ m)) ∧
      (RankTrackerTool.handleSubmit st o).1.result = none ∧
      (RankTrackerTool.handleSubmit st o).1.isLoading = false ∧
      (RankTrackerTool.handleSubmit st o).2 = true) := by
  refine ⟨?_, ?_, ?_, ?_⟩
  · intro st o hw ht hf
    rw [kw_handleSubmit_run st o hw ht]
    obtain ⟨⟨m, he⟩, hr, hl⟩ := kw_finish_fail (KeywordGeneratorTool.start st) o hf
    exact ⟨⟨m, he⟩, hr.trans rfl, hl, rfl⟩
  · intro st o hw hu hf
    rw [onPage_handleSubmit_run st o hw hu]
    obtain ⟨⟨m, he⟩, hr, hl⟩ := onPage_finish_fail (OnPageSeoTool.start st) o hf
    exact ⟨⟨m, he⟩, hr.trans rfl, hl, rfl⟩
  · intro st o hw ht hf
    rw [blog_handleSubmit_run st o hw ht]
    obtain ⟨⟨m, he⟩, hr, hl⟩ := blog_finish_fail (BlogPostWriterTool.start st) o hf
    exact ⟨⟨m, he⟩, hr.trans rfl, hl, rfl⟩
  · intro st o hw hd hk hf
    rw [rt_handleSubmit_run st o hw hd hk]
    obtain ⟨⟨m, he⟩, hr, hl⟩ := rt_finish_fail (RankTrackerTool.start st) o hf
    exact ⟨⟨m, he⟩, hr.trans rfl, hl, rfl⟩

/-- Witness for C2 at concrete failing outcomes: a non-2xx status for the
Keyword Generator, a JSON parse failure for On-Page SEO, a network failure
for the Blog Post Writer, and a malformed shape for the Rank Tracker. -/
theorem claim2_failures_surfaced_witness :
    ((∃ m, (KeywordGeneratorTool.handleSubmit sampleKeywordState
        (FetchOutcome.httpError 404)).1.error
          = some (KeywordGeneratorTool.failPrefix ++ m)) ∧
      (KeywordGeneratorTool.handleSubmit sampleKeywordState
        (FetchOutcome.httpError 404)).1.result = none ∧
      (KeywordGeneratorTool.handleSubmit sampleKeywordState
        (FetchOutcome.httpError 404)).1.isLoading = false ∧
      (KeywordGeneratorTool.handleSubmit sampleKeywordState
        (FetchOutcome.httpError 404)).2 = true) ∧
    ((∃ m, (OnPageSeoTool.handleSubmit sampleOnPageState
        (FetchOutcome.jsonError "Unexpected end of JSON input")).1.error
          = some (OnPageSeoTool.failPrefix ++ m)) ∧
      (OnPageSeoTool.handleSubmit sampleOnPageState
        (FetchOutcome.jsonError "Unexpected end of JSON input")).1.result = none ∧
      (OnPageSeoTool.handleSubmit sampleOnPageState
        (FetchOutcome.jsonError "Unexpected end of JSON input")).1.isLoading = false ∧
      (OnPageSeoTool.handleSubmit sampleOnPageState
        (FetchOutcome.jsonError "Unexpected end of JSON input")).2 = true) ∧
    ((∃ m, (BlogPostWriterTool.handleSubmit sampleBlogState
        (FetchOutcome.networkError "Failed to fetch")).1.error
          = some (BlogPostWriterTool.failPrefix ++ m)) ∧
      (BlogPostWriterTool.handleSubmit sampleBlogState
        (FetchOutcome.networkError "Failed to fetch")).1.result = none ∧
      (BlogPostWriterTool.handleSubmit sampleBlogState
        (FetchOutcome.networkError "Failed to fetch")).1.isLoading = false ∧
      (BlogPostWriterTool.handleSubmit sampleBlogState
        (FetchOutcome.networkError "Failed to fetch")).2 = true) ∧
    ((∃ m, (RankTrackerTool.handleSubmit sampleRankState
        (FetchOutcome.ok (Json.arr []))).1.error
          = some (RankTrackerTool.failPrefix ++ m)) ∧
      (RankTrackerTool.handleSubmit sampleRankState
        (FetchOutcome.ok (Json.arr []))).1.result = none ∧
      (RankTrackerTool.handleSubmit sampleRankState
        (FetchOutcome.ok (Json.arr []))).1.isLoading = false ∧
      (RankTrackerTool.handleSubmit sampleRankState
        (FetchOutcome.ok (Json.arr []))).2 = true) :=
  ⟨claim2_failures_surfaced.1 sampleKeywordState (FetchOutcome.httpError 404)
      (by decide) (by decide) rfl,
    claim2_failures_surfaced.2.1 sampleOnPageState
      (FetchOutcome.jsonError "Unexpected end of JSON input") (by decide) (by decide) rfl,
    claim2_failures_surfaced.2.2.1 sampleBlogState
      (FetchOutcome.networkError "Failed to fetch") (by decide) (by decide) rfl,
    claim2_failures_surfaced.2.2.2 sampleRankState (FetchOutcome.ok (Json.arr []))
      (by decide) (by decide) (by decide) rfl⟩

/-! Claim C1. -/

/-- C1 counterexample: the response `{"0": {"keywords": []}}` is a JSON
object, not an array, so it does not conform to the contract as the claim
states it; yet the Keyword Generator handler accepts it — `data?.[0]`
reads property `"0"` of the object — stores the keyword list and reports no
error. -/
theorem claim1_counterexample :
    kwConformsClaim (Json.obj [("0", Json.obj [("keywords", Json.arr [])])]) = false ∧
    (KeywordGeneratorTool.handleSubmit sampleKeywordState
      (FetchOutcome.ok (Json.obj [("0", Json.obj [("keywords", Json.arr [])])]))).1.error
        = none ∧
    (KeywordGeneratorTool.handleSubmit sampleKeywordState
      (FetchOutcome.ok (Json.obj [("0", Json.obj [("keywords", Json.arr [])])]))).1.result
        = some (Json.arr []) :=
  ⟨rfl, rfl, rfl⟩

/-- C1 (amended): for every webhook response whose JSON value does not
conform to the tool-specific contract — where the first element is the one
reached by `data?.[0]` (index 0 of an array, property `"0"` of an object, or
the first character of a string) and must carry a `keywords` array (Keyword
Generator), a non-empty string under `blog_post_html` (Blog Post Writer and
On-Page SEO), or be truthy with defined `current_rank` and `previous_rank`
fields (Rank Tracker) — the submit handler sets the tool's shape-error
message and stores no parsed result. -/
theorem claim1_amended_nonconforming_error :
    (∀ (st : KeywordGeneratorTool.State) (d : Json), st.webhook ≠ "" → st.topic ≠ "" →
      kwConformsLookup d = false →
      (KeywordGeneratorTool.handleSubmit st (FetchOutcome.ok d)).1.error
        = some (KeywordGeneratorTool.failPrefix ++ KeywordGeneratorTool.shapeMsg) ∧
      (KeywordGeneratorTool.handleSubmit st (FetchOutcome.ok d)).1.result = none) ∧
    (∀ (st : BlogPostWriterTool.State) (d : Json), st.webhook ≠ "" → st.topic ≠ "" →
      htmlConformsLookup d = false →
      (BlogPostWriterTool.handleSubmit st (FetchOutcome.ok d)).1.error
        = some (BlogPostWriterTool.failPrefix ++ BlogPostWriterTool.shapeMsg) ∧
      (BlogPostWriterTool.handleSubmit st (FetchOutcome.ok d)).1.result = none) ∧
    (∀ (st : OnPageSeoTool.State) (d : Json), st.webhook ≠ "" → st.url ≠ "" →
      htmlConformsLookup d = false →
      (OnPageSeoTool.handleSubmit st (FetchOutcome.ok d)).1.error
        = some (OnPageSeoTool.failPrefix ++ OnPageSeoTool.shapeMsg) ∧
      (OnPageSeoTool.handleSubmit st (FetchOutcome.ok d)).1.result = none) ∧
    (∀ (st : RankTrackerTool.State) (d : Json),
      st.webhook ≠ "" → st.domain ≠ "" → st.keyword ≠ "" →
      rtConformsLookup d = false →
      (RankTrackerTool.handleSubmit st (FetchOutcome.ok d)).1.error
        = some (RankTrackerTool.failPrefix ++ RankTrackerTool.shapeMsg) ∧
      (RankTrackerTool.handleSubmit st (FetchOutcome.ok d)).1.result = none) := by
  refine ⟨?_, ?_, ?_, ?_⟩
  · intro st d hw ht hc
    rw [kw_handleSubmit_run st _ hw ht]
    have hext := kw_extract_of_nonconforming d hc
    exact ⟨by simp [KeywordGeneratorTool.finish, hext],
      by simp [KeywordGeneratorTool.finish, hext, KeywordGeneratorTool.start]⟩
  · intro st d hw ht hc
    rw [blog_handleSubmit_run st _ hw ht]
    have hext := blog_extract_of_nonconforming d hc
    exact ⟨by simp [BlogPostWriterTool.finish, hext],
      by simp [BlogPostWriterTool.finish, hext, BlogPostWriterTool.start]⟩
  · intro st d hw hu hc
    rw [onPage_handleSubmit_run st _ hw hu]
    have hext := onPage_extract_of_nonconforming d hc
    exact ⟨by simp [OnPageSeoTool.finish, hext],
      by simp [OnPageSeoTool.finish, hext, OnPageSeoTool.start]⟩
  · intro st d hw hd hk hc
    rw [rt_handleSubmit_run st _ hw hd hk]
    have hext := rt_extract_of_nonconforming d hc
    exact ⟨by simp [RankTrackerTool.finish, hext],
      by simp [RankTrackerTool.finish, hext, RankTrackerTool.start]⟩

/-- Witness for the amended C1 at concrete non-conforming responses: a bare
number for the Keyword Generator, an empty `blog_post_html` string for the
Blog Post Writer, a missing field for On-Page SEO, and an element lacking
`previous_rank` for the Rank Tracker. -/
theorem claim1_amended_nonconforming_error_witness :
    ((KeywordGeneratorTool.handleSubmit sampleKeywordState
        (FetchOutcome.ok (Json.num 7))).1.error
        = some (KeywordGeneratorTool.failPrefix ++ KeywordGeneratorTool.shapeMsg) ∧
      (KeywordGeneratorTool.handleSubmit sampleKeywordState
        (FetchOutcome.ok (Json.num 7))).1.result = none) ∧
    ((BlogPostWriterTool.handleSubmit sampleBlogState
        (FetchOutcome.ok (Json.arr [Json.obj [("blog_post_html", Json.str "")]]))).1.error
        = some (BlogPostWriterTool.failPrefix ++ BlogPostWriterTool.shapeMsg) ∧
      (BlogPostWriterTool.handleSubmit sampleBlogState
        (FetchOutcome.ok (Json.arr [Json.obj [("blog_post_html", Json.str "")]]))).1.result
        = none) ∧
    ((OnPageSeoTool.handleSubmit sampleOnPageState
        (FetchOutcome.ok (Json.arr [Json.obj []]))).1.error
        = some (OnPageSeoTool.failPrefix ++ OnPageSeoTool.shapeMsg) ∧
      (OnPageSeoTool.handleSubmit sampleOnPageState
        (FetchOutcome.ok (Json.arr [Json.obj []]))).1.result = none) ∧
    ((RankTrackerTool.handleSubmit sampleRankState
        (FetchOutcome.ok (Json.arr [Json.obj [("current_rank", Json.num 1)]]))).1.error
        = some (RankTrackerTool.failPrefix ++ RankTrackerTool.shapeMsg) ∧
      (RankTrackerTool.handleSubmit sampleRankState
        (FetchOutcome.ok (Json.arr [Json.obj [("current_rank", Json.num 1)]]))).1.result
        = none) :=
  ⟨claim1_amended_nonconforming_error.1 sampleKeywordState (Json.num 7)
      (by decide) (by decide) rfl,
    claim1_amended_nonconforming_error.2.1 sampleBlogState
      (Json.arr [Json.obj [("blog_post_html", Json.str "")]]) (by decide) (by decide) rfl,
    claim1_amended_nonconforming_error.2.2.1 sampleOnPageState
      (Json.arr [Json.obj []]) (by decide) (by decide) rfl,
    claim1_amended_nonconforming_error.2.2.2 sampleRankState
      (Json.arr [Json.obj [("current_rank", Json.num 1)]])
      (by decide) (by decide) (by decide) rfl⟩

theorem kw_extract_ok (fs : List (String × Json)) (ks : List Json)
    (hk : lookupField fs "keywords" = some (Json.arr ks)) (hv : kwInnerValid ks = true) :
    KeywordGeneratorTool.extract (Json.arr [Json.obj fs]) = Except.ok (Json.arr ks) := by
  have h0 : jsFieldOpt (jsIndex0 (Json.arr [Json.obj fs])) "keywords" = some (Json.arr ks) := by
    simp [jsIndex0, jsFieldOpt, jsProp, hk]
  unfold KeywordGeneratorTool.extract
  rw [h0]
  cases ks with
  | nil => rfl
  | cons k t =>
    cases k <;> simp [kwInnerValid] at hv
    rename_i fs0
    obtain ⟨a, ha⟩ := Option.isSome_iff_exists.mp hv.1
    obtain ⟨b, hb⟩ := Option.isSome_iff_exists.mp hv.2
    simp [jsProp, ha, hb]

theorem rt_extract_ok (fs : List (String × Json)) (c p : Json)
    (hc : lookupField fs "current_rank" = some c)
    (hp : lookupField fs "previous_rank" = some p) :
    RankTrackerTool.extract (Json.arr [Json.obj fs]) = Except.ok (c, p) := by
  unfold RankTrackerTool.extract
  simp [jsIndex0, jsTruthy, jsProp, hc, hp]

/-! Claim C3. -/

/-- C3 counterexample: the well-formed response
`[{"current_rank": 0, "previous_rank": 3}]` does not yield a displayed
`Current Rank` equal to the payload value `0`: the handler stores the
sentinel string `'Not Found'` instead. -/
theorem claim3_counterexample :
    (RankTrackerTool.handleSubmit sampleRankState
      (FetchOutcome.ok (Json.arr [Json.obj
        [("current_rank", Json.num 0), ("previous_rank", Json.num 3)]]))).1.result
      = some { currentRank := Json.str "Not Found", previousRank := Json.num 3 } ∧
    Json.str "Not Found" ≠ Json.num 0 :=
  ⟨rfl, fun h => Json.noConfusion h⟩

/-- C3 (amended): for every well-formed webhook response, the stored result
equals the payload of the response's first element: a Keyword Generator
response `[{"keywords": ks}]` with `ks` a valid array yields `result = ks`
unchanged, and a Rank Tracker response
`[{"current_rank": c, "previous_rank": p}]` with both ranks non-zero
numbers yields a result whose `Current Rank` and `Previous Rank` equal `c`
and `p` (a rank of exactly 0 is instead displayed as the corresponding
sentinel, per the zero-rank mapping). -/
theorem claim3_amended_wellformed_results :
    (∀ (st : KeywordGeneratorTool.State) (fs : List (String × Json)) (ks : List Json),
      st.webhook ≠ "" → st.topic ≠ "" →
      lookupField fs "keywords" = some (Json.arr ks) → kwInnerValid ks = true →
      (KeywordGeneratorTool.handleSubmit st
        (FetchOutcome.ok (Json.arr [Json.obj fs]))).1.result = some (Json.arr ks) ∧
      (KeywordGeneratorTool.handleSubmit st
        (FetchOutcome.ok (Json.arr [Json.obj fs]))).1.error = none) ∧
    (∀ (st : RankTrackerTool.State) (fs : List (String × Json)) (c p : Int),
      st.webhook ≠ "" → st.domain ≠ "" → st.keyword ≠ "" →
      lookupField fs "current_rank" = some (Json.num c) →
      lookupField fs "previous_rank" = some (Json.num p) → c ≠ 0 → p ≠ 0 →
      (RankTrackerTool.handleSubmit st
        (FetchOutcome.ok (Json.arr [Json.obj fs]))).1.result
        = some { currentRank := Json.num c, previousRank := Json.num p } ∧
      (RankTrackerTool.handleSubmit st
        (FetchOutcome.ok (Json.arr [Json.obj fs]))).1.error = none) := by
  constructor
  · intro st fs ks hw ht hk hv
    rw [kw_handleSubmit_run st _ hw ht]
    have hext := kw_extract_ok fs ks hk hv
    exact ⟨by simp [KeywordGeneratorTool.finish, hext],
      by simp [KeywordGeneratorTool.finish, hext, KeywordGeneratorTool.start]⟩
  · intro st fs c p hw hd hk hc hp hc0 hp0
    rw [rt_handleSubmit_run st _ hw hd hk]
    have hext := rt_extract_ok fs (Json.num c) (Json.num p) hc hp
    have hz : RankTrackerTool.toRankResult (Json.num c) (Json.num p) =
        { currentRank := Json.num c, previousRank := Json.num p } := by
      simp [RankTrackerTool.toRankResult, isNumZero, hc0, hp0]
    exact ⟨by simp [RankTrackerTool.finish, hext, hz],
      by simp [RankTrackerTool.finish, hext, RankTrackerTool.start]⟩

/-- Witness for the amended C3 at concrete well-formed responses. -/
theorem claim3_amended_wellformed_results_witness :
    ((KeywordGeneratorTool.handleSubmit sampleKeywordState
        (FetchOutcome.ok (Json.arr [Json.obj [("keywords",
          Json.arr [Json.obj [("keyword", Json.str "ai tools"),
            ("intent", Json.str "informational")]])]]))).1.result
        = some (Json.arr [Json.obj [("keyword", Json.str "ai tools"),
            ("intent", Json.str "informational")]]) ∧
      (KeywordGeneratorTool.handleSubmit sampleKeywordState
        (FetchOutcome.ok (Json.arr [Json.obj [("keywords",
          Json.arr [Json.obj [("keyword", Json.str "ai tools"),
            ("intent", Json.str "informational")]])]]))).1.error = none) ∧
    ((RankTrackerTool.handleSubmit sampleRankState
        (FetchOutcome.ok (Json.arr [Json.obj [("current_rank", Json.num 4),
          ("previous_rank", Json.num 9)]]))).1.result
        = some { currentRank := Json.num 4, previousRank := Json.num 9 } ∧
      (RankTrackerTool.handleSubmit sampleRankState
        (FetchOutcome.ok (Json.arr [Json.obj [("current_rank", Json.num 4),
          ("previous_rank", Json.num 9)]]))).1.error = none) :=
  ⟨claim3_amended_wellformed_results.1 sampleKeywordState
      [("keywords", Json.arr [Json.obj [("keyword", Json.str "ai tools"),
        ("intent", Json.str "informational")]])]
      [Json.obj [("keyword", Json.str "ai tools"), ("intent", Json.str "informational")]]
      (by decide) (by decide) rfl rfl,
    claim3_amended_wellformed_results.2 sampleRankState
      [("current_rank", Json.num 4), ("previous_rank", Json.num 9)] 4 9
      (by decide) (by decide) (by decide) rfl rfl (by decide) (by decide)⟩

/-! Claim C10. -/

/-- C10: in the Rank Tracker, a rank value strictly equal to the number 0 in
a well-formed response is mapped to a sentinel rather than shown: a zero
`current_rank` is stored as the string `'Not Found'` and a zero
`previous_rank` as `'N/A'`, while every other rank value is passed through
unchanged. `isNumZero` is strict equality against the number 0, as the
accompanying conjuncts pin down. -/
theorem claim10_zero_rank_sentinels :
    (∀ (st : RankTrackerTool.State) (fs : List (String × Json)) (v w : Json),
      st.webhook ≠ "" → st.domain ≠ "" → st.keyword ≠ "" →
      lookupField fs "current_rank" = some v → lookupField fs "previous_rank" = some w →
      (RankTrackerTool.handleSubmit st
        (FetchOutcome.ok (Json.arr [Json.obj fs]))).1.result
        = some { currentRank := if isNumZero v then Json.str "Not Found" else v,
                 previousRank := if isNumZero w then Json.str "N/A" else w }) ∧
    isNumZero (Json.num 0) = true ∧
    (∀ n : Int, n ≠ 0 → isNumZero (Json.num n) = false) ∧
    (∀ s, isNumZero (Json.str s) = false) ∧
    (∀ b, isNumZero (Json.bool b) = false) ∧
    isNumZero Json.null = false := by
  refine ⟨?_, rfl, ?_, fun s => rfl, fun b => rfl, rfl⟩
  · intro st fs v w hw hd hk hc hp
    rw [rt_handleSubmit_run st _ hw hd hk]
    have hext := rt_extract_ok fs v w hc hp
    simp [RankTrackerTool.finish, hext, RankTrackerTool.toRankResult]
  · intro n hn
    simp [isNumZero, hn]

/-- Witness for C10 with a zero `current_rank` and a non-zero
`previous_rank`. -/
theorem claim10_zero_rank_sentinels_witness :
    (RankTrackerTool.handleSubmit sampleRankState
      (FetchOutcome.ok (Json.arr [Json.obj [("current_rank", Json.num 0),
        ("previous_rank", Json.num 12)]]))).1.result
      = some { currentRank := if isNumZero (Json.num 0) then Json.str "Not Found"
                 else Json.num 0,
               previousRank := if isNumZero (Json.num 12) then Json.str "N/A"
                 else Json.num 12 } ∧
    isNumZero (Json.num 12) = false :=
  ⟨claim10_zero_rank_sentinels.1 sampleRankState
      [("current_rank", Json.num 0), ("previous_rank", Json.num 12)]
      (Json.num 0) (Json.num 12) (by decide) (by decide) (by decide) rfl rfl,
    claim10_zero_rank_sentinels.2.2.1 12 (by decide)⟩

/-! Claim C4. -/

/-- C4: round-trip of webhook persistence — for every tool and every webhook
string `w`, updating that tool's state with webhook `w` (from any store
shape the application itself can produce: key absent or holding an object)
and then re-initialising the application by reading the single local-storage
key restores that tool's webhook field to exactly `w`, while all
non-webhook fields start from their empty defaults. -/
theorem claim4_webhook_round_trip :
    ∀ (tool : Tool) (w : String) (store : StoreContent) (app : AppState),
      storeMapLike store = true →
      (initApp (updateToolState (webhookOnlyUpdate tool w) store app).store).webhookOf tool
        = w ∧
      (initApp (updateToolState (webhookOnlyUpdate tool w) store app).store).nonWebhookDefaults
      := by
  intro tool w store app hm
  cases store with
  | corrupt => simp [storeMapLike] at hm
  | absent =>
    cases tool <;>
      exact ⟨by simp [updateToolState, webhookOnlyUpdate, ToolUpdate.webhookField,
          ToolUpdate.tool, storeSetWebhook, initApp, webhookFromStore, jsProp, lookupField,
          Tool.key, AppState.webhookOf, defaultOnPageState, defaultKeywordState,
          defaultBlogState, defaultRankState],
        by simp [updateToolState, webhookOnlyUpdate, ToolUpdate.webhookField,
          ToolUpdate.tool, storeSetWebhook, initApp, AppState.nonWebhookDefaults,
          defaultOnPageState, defaultKeywordState, defaultBlogState, defaultRankState]⟩
  | value j =>
    cases j with
    | obj fs =>
      cases tool <;>
        exact ⟨by simp [updateToolState, webhookOnlyUpdate, ToolUpdate.webhookField,
            ToolUpdate.tool, storeSetWebhook, initApp, webhookFromStore, jsProp,
            lookupField_setKey, Tool.key, AppState.webhookOf, defaultOnPageState,
            defaultKeywordState, defaultBlogState, defaultRankState],
          by simp [updateToolState, webhookOnlyUpdate, ToolUpdate.webhookField,
            ToolUpdate.tool, storeSetWebhook, initApp, AppState.nonWebhookDefaults,
            defaultOnPageState, defaultKeywordState, defaultBlogState, defaultRankState]⟩
    | null => simp [storeMapLike] at hm
    | bool b => simp [storeMapLike] at hm
    | num n => simp [storeMapLike] at hm
    | str s => simp [storeMapLike] at hm
    | arr elems => simp [storeMapLike] at hm

/-- Witness for C4: persisting a webhook for the Rank Tracker from an empty
store and re-initialising restores it. -/
theorem claim4_webhook_round_trip_witness :
    (initApp (updateToolState
        (webhookOnlyUpdate Tool.rankTracker "https://n8n.example.com/webhook/rank")
        StoreContent.absent cleanAppState).store).webhookOf Tool.rankTracker
      = "https://n8n.example.com/webhook/rank" ∧
    (initApp (updateToolState
        (webhookOnlyUpdate Tool.rankTracker "https://n8n.example.com/webhook/rank")
        StoreContent.absent cleanAppState).store).nonWebhookDefaults :=
  claim4_webhook_round_trip Tool.rankTracker "https://n8n.example.com/webhook/rank"
    StoreContent.absent cleanAppState rfl

/-! Claim C6. -/

/-- C6 counterexample: an update that does carry a webhook field issues no
write when the stored value is corrupt — `JSON.parse` throws before
`localStorage.setItem` runs and the `catch` block swallows the error — so
`updateToolState` does not write exactly when the update contains a webhook
field. -/
theorem claim6_counterexample :
    (webhookOnlyUpdate Tool.keywordGenerator "https://example.com/h").webhookField
      = some "https://example.com/h" ∧
    (updateToolState (webhookOnlyUpdate Tool.keywordGenerator "https://example.com/h")
      StoreContent.corrupt cleanAppState).wrote = false ∧
    (updateToolState (webhookOnlyUpdate Tool.keywordGenerator "https://example.com/h")
      StoreContent.corrupt cleanAppState).store = StoreContent.corrupt :=
  ⟨rfl, rfl, rfl⟩

/-- C6 (amended): only the webhook field is durable. An update without a
webhook field never writes to local storage and leaves it unchanged; an
update with a webhook field writes, provided the existing store content is
one the application can itself produce (key absent or a JSON object —
corrupt content suppresses the write), and then stores exactly the
tool-to-webhook mapping extended with this webhook; and an update to one
tool's state leaves every other tool's in-memory state unchanged. -/
theorem claim6_amended_webhook_only_durable :
    (∀ (tu : ToolUpdate) (store : StoreContent) (app : AppState),
      tu.webhookField = none →
      (updateToolState tu store app).wrote = false ∧
      (updateToolState tu store app).store = store) ∧
    (∀ (tu : ToolUpdate) (store : StoreContent) (app : AppState) (w : String),
      tu.webhookField = some w → storeMapLike store = true →
      (updateToolState tu store app).wrote = true ∧
      (updateToolState tu store app).store
        = StoreContent.value
            (Json.obj (setKey (storeFields store) tu.tool.key (Json.str w)))) ∧
    (∀ (u : OnPageUpdate) (store : StoreContent) (app : AppState),
      (updateToolState (ToolUpdate.onPage u) store app).app.keywordGenerator
          = app.keywordGenerator ∧
      (updateToolState (ToolUpdate.onPage u) store app).app.blogPostWriter
          = app.blogPostWriter ∧
      (updateToolState (ToolUpdate.onPage u) store app).app.rankTracker = app.rankTracker) ∧
    (∀ (u : KeywordUpdate) (store : StoreContent) (app : AppState),
      (updateToolState (ToolUpdate.keyword u) store app).app.onPageSEO = app.onPageSEO ∧
      (updateToolState (ToolUpdate.keyword u) store app).app.blogPostWriter
          = app.blogPostWriter ∧
      (updateToolState (ToolUpdate.keyword u) store app).app.rankTracker = app.rankTracker) ∧
    (∀ (u : BlogUpdate) (store : StoreContent) (app : AppState),
      (updateToolState (ToolUpdate.blog u) store app).app.onPageSEO = app.onPageSEO ∧
      (updateToolState (ToolUpdate.blog u) store app).app.keywordGenerator
          = app.keywordGenerator ∧
      (updateToolState (ToolUpdate.blog u) store app).app.rankTracker = app.rankTracker) ∧
    (∀ (u : RankUpdate) (store : StoreContent) (app : AppState),
      (updateToolState (ToolUpdate.rank u) store app).app.onPageSEO = app.onPageSEO ∧
      (updateToolState (ToolUpdate.rank u) store app).app.keywordGenerator
          = app.keywordGenerator ∧
      (updateToolState (ToolUpdate.rank u) store app).app.blogPostWriter
          = app.blogPostWriter) := by
  refine ⟨?_, ?_, ?_, ?_, ?_, ?_⟩
  · intro tu store app h
    simp [updateToolState, h]
  · intro tu store app w h hm
    cases store with
    | corrupt => simp [storeMapLike] at hm
    | absent => simp [updateToolState, h, storeSetWebhook, storeFields, setKey]
    | value j =>
      cases j with
      | obj fs => simp [updateToolState, h, storeSetWebhook, storeFields]
      | null => simp [storeMapLike] at hm
      | bool b => simp [storeMapLike] at hm
      | num n => simp [storeMapLike] at hm
      | str s => simp [storeMapLike] at hm
      | arr elems => simp [storeMapLike] at hm
  · intro u store app
    unfold updateToolState
    refine ⟨?_, ?_, ?_⟩ <;> (split <;> simp [ToolUpdate.applyApp])
  · intro u store app
    unfold updateToolState
    refine ⟨?_, ?_, ?_⟩ <;> (split <;> simp [ToolUpdate.applyApp])
  · intro u store app
    unfold updateToolState
    refine ⟨?_, ?_, ?_⟩ <;> (split <;> simp [ToolUpdate.applyApp])
  · intro u store app
    unfold updateToolState
    refine ⟨?_, ?_, ?_⟩ <;> (split <;> simp [ToolUpdate.applyApp])

/-- Witness for the amended C6: an `isLoading`-only update writes nothing; a
webhook update from an object store writes the extended mapping; a webhook
update leaves the other tools' states untouched. -/
theorem claim6_amended_webhook_only_durable_witness :
    ((updateToolState (ToolUpdate.keyword { isLoading := some true })
        (StoreContent.value (Json.obj [("On-Page SEO", Json.str "keep")]))
        cleanAppState).wrote = false ∧
      (updateToolState (ToolUpdate.keyword { isLoading := some true })
        (StoreContent.value (Json.obj [("On-Page SEO", Json.str "keep")]))
        cleanAppState).store
        = StoreContent.value (Json.obj [("On-Page SEO", Json.str "keep")])) ∧
    ((updateToolState (webhookOnlyUpdate Tool.keywordGenerator "https://example.com/h")
        (StoreContent.value (Json.obj [("On-Page SEO", Json.str "keep")]))
        cleanAppState).wrote = true ∧
      (updateToolState (webhookOnlyUpdate Tool.keywordGenerator "https://example.com/h")
        (StoreContent.value (Json.obj [("On-Page SEO", Json.str "keep")]))
        cleanAppState).store
        = StoreContent.value
            (Json.obj (setKey [("On-Page SEO", Json.str "keep")] "Keyword Generator"
              (Json.str "https://example.com/h")))) ∧
    ((updateToolState (ToolUpdate.keyword { webhook := some "https://example.com/h" })
        StoreContent.absent cleanAppState).app.onPageSEO = cleanAppState.onPageSEO ∧
      (updateToolState (ToolUpdate.keyword { webhook := some "https://example.com/h" })
        StoreContent.absent cleanAppState).app.blogPostWriter
          = cleanAppState.blogPostWriter ∧
      (updateToolState (ToolUpdate.keyword { webhook := some "https://example.com/h" })
        StoreContent.absent cleanAppState).app.rankTracker = cleanAppState.rankTracker) :=
  ⟨claim6_amended_webhook_only_durable.1 (ToolUpdate.keyword { isLoading := some true })
      (StoreContent.value (Json.obj [("On-Page SEO", Json.str "keep")])) cleanAppState rfl,
    claim6_amended_webhook_only_durable.2.1
      (webhookOnlyUpdate Tool.keywordGenerator "https://example.com/h")
      (StoreContent.value (Json.obj [("On-Page SEO", Json.str "keep")])) cleanAppState
      "https://example.com/h" rfl rfl,
    claim6_amended_webhook_only_durable.2.2.2.1
      { webhook := some "https://example.com/h" } StoreContent.absent cleanAppState⟩

/-! Claim C8. -/

/-- C8 counterexample: on the input `p` ++ backtick ++ newline ++ backtick
++ `a&` ++ backtick ++ `q`, the second input line contains the code span
`a&`, yet the parser's output contains no `&amp;` at all: the paragraph
step first replaces the newline by `<br />`, which re-pairs the backticks,
so the span's ampersand reaches the output unescaped. Hence not every
special character inside a code span of the input is replaced by its entity
in the output of `parseMarkdown`. -/
theorem claim8_counterexample :
    Markdown.splitNl "p`\n`a&`q".data = ["p`".data, "`a&`q".data] ∧
    Markdown.lineCodeSpans "`a&`q" = ["a&"] ∧
    Markdown.ampChar ∈ "a&".data ∧
    hasSubL "&amp;".data (Markdown.parseMarkdown "p`\n`a&`q").data = false := by
  refine ⟨by decide, by decide, by decide, by decide⟩

/-- C8 (amended): for every line the parser processes, the content of each
backtick-delimited code span of that line — the spans matched by the lazy
code regex — appears in the output of the code-span substitution escaped and
wrapped in `<code>` tags, where escaping replaces every occurrence of `&`,
`<`, `>`, double quote and single quote by its HTML entity (`escapeHtml`
coincides with the per-character entity map); `processLine` applies the
code-span substitution, and with it the escaping, before the bold
substitution, the only other markdown substitution on a line. -/
theorem claim8_amended_code_span_escaping :
    (∀ (L c : String), c ∈ Markdown.lineCodeSpans L →
      hasSubL ("<code>".data ++ escapeHtmlSpec c.data ++ "</code>".data)
        (Markdown.codeSub L.data) = true) ∧
    (∀ l : List Char, Markdown.escapeHtmlL l = escapeHtmlSpec l) ∧
    (∀ l : List Char, Markdown.processLineL l = Markdown.boldSub (Markdown.codeSub l)) := by
  refine ⟨?_, Markdown.escapeHtmlL_eq_spec, fun l => rfl⟩
  intro L c hc
  obtain ⟨l0, hl0, hmk⟩ := List.mem_map.mp hc
  have hdata : c.data = l0 := by rw [← hmk]
  rw [hdata, ← Markdown.escapeHtmlL_eq_spec]
  exact Markdown.span_escaped l0 L.data none hl0

/-- Witness for the amended C8 on the line `x` ++ backtick ++ `a&` ++
backtick ++ `y`. -/
theorem claim8_amended_code_span_escaping_witness :
    "a&" ∈ Markdown.lineCodeSpans "x`a&`y" ∧
    hasSubL ("<code>".data ++ escapeHtmlSpec "a&".data ++ "</code>".data)
      (Markdown.codeSub "x`a&`y".data) = true :=
  ⟨by decide, claim8_amended_code_span_escaping.1 "x`a&`y" "a&" (by decide)⟩

end SeoAi
